import Mathlib

/-!
Shallow embedding of the desktop sidecar-process supervisor implemented in
`src/web/src-tauri/src/main.rs`, together with proofs of the specified
properties.

Modelling conventions:
* OS interaction is captured by explicit environment records.  `OsEnv` models
  environment-variable lookup, the current directory, directory existence, and
  the compile-time manifest directory.  `FsEnv` models reading and JSON-parsing
  the runtime-profile file (serde is an external collaborator and is modelled
  as an abstract parse function).  `World` models the single persisted
  diagnostics-events file, keyed by path; write errors are deliberately ignored
  by the source (`let _ = fs::write(...)`), so the model takes the
  successful-write world, matching the "best-effort" caveat of the spec.
* The clock (`now_ms()`) is sampled once per operation and passed as a `Nat`
  parameter `now`.
* Process handles (`std::process::Child`) are modelled as opaque pids; spawn
  attempts and TCP port-readiness waits are resolved by a `SpawnEnv` record
  (spawning is OS behaviour; the supervisor only observes success/failure and
  readiness).  Command-line/environment construction for children has no
  effect on supervisor state and is not modelled.
* `PathBuf::join` is modelled as string concatenation with a `/` separator.
* The state mutex is not modelled: every operation is a pure function from
  (state, world) to (state, world, output), mirroring the fact that all four
  operations run under one exclusive lock for their whole duration.
-/

namespace PQA

/-- `RuntimeMode` from main.rs: closed variant over the two runtime modes. -/
inductive RuntimeMode where
  | LocalFullstack
  | RemoteSlim
deriving DecidableEq, Repr

/-- `RuntimeMode::from_raw`: total parse, defaulting to `LocalFullstack`. -/
def RuntimeMode.from_raw (value : String) : RuntimeMode :=
  match value.trim with
  | "desktop_remote_slim" => RuntimeMode.RemoteSlim
  | "remote_slim" => RuntimeMode.RemoteSlim
  | _ => RuntimeMode.LocalFullstack

/-- `RuntimeMode::as_str`: external status rendering. -/
def RuntimeMode.as_str : RuntimeMode → String
  | RuntimeMode.LocalFullstack => "local_fullstack"
  | RuntimeMode.RemoteSlim => "remote_slim"

/-- `RuntimeMode::as_backend_runtime_mode`: rendering passed to children. -/
def RuntimeMode.as_backend_runtime_mode : RuntimeMode → String
  | RuntimeMode.LocalFullstack => "desktop_local_fullstack"
  | RuntimeMode.RemoteSlim => "desktop_remote_slim"

/-- `LocalPorts` from main.rs (profile `local_ports` block). -/
structure LocalPorts where
  web : Option Nat := none
  backend : Option Nat := none
  mongo : Option Nat := none
deriving DecidableEq, Repr

/-- `RuntimeProfile` from main.rs (the consumed profile-file fields). -/
structure RuntimeProfile where
  mode : Option String := none
  backend_url : Option String := none
  local_ports : Option LocalPorts := none
  data_dir : Option String := none
deriving DecidableEq, Repr

/-- `DesktopRuntimeStartRequest` from main.rs. -/
structure DesktopRuntimeStartRequest where
  mode : Option String := none
  profile_path : Option String := none
  web_dev : Option Bool := none
  mongo_bin : Option String := none
  python_bin : Option String := none
deriving DecidableEq, Repr

/-- A spawned OS process handle (`std::process::Child`), identified by pid. -/
structure Child where
  id : Nat
deriving DecidableEq, Repr

/-- `RuntimeLaunchConfig` from main.rs: the immutable plan of one run. -/
structure RuntimeLaunchConfig where
  mode : RuntimeMode
  web_port : Nat
  backend_port : Nat
  mongo_port : Nat
  backend_url : String
  desktop_session_id : String
  runtime_profile_path : Option String
  web_dev : Bool
  mongo_bin : Option String
  python_bin : String
  web_dir : String
  backend_dir : String
  data_dir : Option String
deriving DecidableEq, Repr

/-- `DesktopRuntimeDiagEvent` from main.rs. -/
structure DesktopRuntimeDiagEvent where
  ts_ms : Nat
  level : String
  source : String
  message : String
deriving DecidableEq, Repr

/-- `DesktopRuntimeStatus` from main.rs: the read-only snapshot. -/
structure DesktopRuntimeStatus where
  running : Bool
  mode : String
  web_pid : Option Nat
  backend_pid : Option Nat
  mongo_pid : Option Nat
  started_at_ms : Option Nat
  last_error : Option String
  web_port : Nat
  backend_port : Nat
  mongo_port : Nat
  backend_url : String
  auto_restart : Bool
  restart_count : Nat
  last_restart_ms : Option Nat
  diagnostics_path : Option String
deriving DecidableEq, Repr

/-- `DesktopRuntimeDiagnostics` from main.rs. -/
structure DesktopRuntimeDiagnostics where
  generated_at_ms : Nat
  status : DesktopRuntimeStatus
  events : List DesktopRuntimeDiagEvent
deriving DecidableEq, Repr

/-- `RuntimeProcessState` from main.rs: the supervisor's mutable state. -/
structure RuntimeProcessState where
  running : Bool
  mode : RuntimeMode
  web : Option Child
  backend : Option Child
  mongo : Option Child
  started_at_ms : Option Nat
  last_error : Option String
  web_port : Nat
  backend_port : Nat
  mongo_port : Nat
  backend_url : String
  auto_restart : Bool
  restart_count : Nat
  last_restart_ms : Option Nat
  launch_config : Option RuntimeLaunchConfig
  events : List DesktopRuntimeDiagEvent
  diagnostics_path : Option String
deriving DecidableEq, Repr

/-- `impl Default for RuntimeProcessState` from main.rs. -/
def default_runtime_state : RuntimeProcessState where
  running := false
  mode := RuntimeMode.LocalFullstack
  web := none
  backend := none
  mongo := none
  started_at_ms := none
  last_error := none
  web_port := 3000
  backend_port := 8080
  mongo_port := 27017
  backend_url := "http://127.0.0.1:8080"
  auto_restart := false
  restart_count := 0
  last_restart_ms := none
  launch_config := none
  events := []
  diagnostics_path := none

/-- Environment-variable / directory view of the OS, as consumed by main.rs
(`env::var`, `env::current_dir`, `Path::exists`, `CARGO_MANIFEST_DIR`). -/
structure OsEnv where
  getenv : String → Option String
  cwd : Option String
  dirExists : String → Bool
  manifestDir : String

/-- Profile-file reading (`fs::read_to_string`) and serde JSON parsing,
modelled abstractly: `none` stands for an I/O error resp. a parse error. -/
structure FsEnv where
  readFile : String → Option String
  parseProfile : String → Option RuntimeProfile

/-- The persisted diagnostics file(s), keyed by path.  `none` means the file
is missing, unreadable or not a valid JSON event array. -/
structure World where
  file : String → Option (List DesktopRuntimeDiagEvent)

/-- `PathBuf::join`, modelled as string concatenation with `/`. -/
def pathJoin (a b : String) : String := a ++ "/" ++ b

/-- `normalize_path` from main.rs. -/
def normalize_path (raw : String) : Option String :=
  let trimmed := raw.trim
  if trimmed.isEmpty then none else some trimmed

/-- `user_home_dir` from main.rs: first non-empty of `HOME`, `USERPROFILE`. -/
def user_home_dir (os : OsEnv) : Option String :=
  let fromVar := fun (key : String) =>
    match os.getenv key with
    | some raw =>
      let clean := raw.trim
      if clean.isEmpty then none else some clean
    | none => none
  (fromVar "HOME").orElse (fun _ => fromVar "USERPROFILE")

/-- `expand_tilde_path` from main.rs. -/
def expand_tilde_path (os : OsEnv) (raw : String) : String :=
  let text := raw.trim
  if text = "~" then
    match user_home_dir os with
    | some home => home
    | none => text
  else if text.startsWith "~/" then
    match user_home_dir os with
    | some home => pathJoin home (text.drop 2)
    | none => text
  else text

/-- The `_ =>` arm of `diagnostics_path_for_data_dir`: default root under the
user's home, else the working directory, else a bare relative directory. -/
def default_diag_root (os : OsEnv) : String :=
  match user_home_dir os with
  | some home => pathJoin home ".project-qa-assistant"
  | none =>
    match os.cwd with
    | some cwd => pathJoin cwd ".project-qa-assistant"
    | none => ".project-qa-assistant"

/-- `diagnostics_path_for_data_dir` from main.rs. -/
def diagnostics_path_for_data_dir (os : OsEnv) (data_dir_hint : Option String) : String :=
  let root :=
    match data_dir_hint with
    | some raw =>
      if raw.trim.isEmpty then default_diag_root os
      else expand_tilde_path os raw
    | none => default_diag_root os
  pathJoin (pathJoin root "runtime") "runtime-events.json"

/-- `MAX_EVENTS` from main.rs (declared at each of its three use sites). -/
def MAX_EVENTS : Nat := 200

/-- The capping step main.rs repeats at its three buffer-mutation sites:
`let trim = rows.len().saturating_sub(MAX_EVENTS); rows.drain(0..trim)`. -/
def cap_events (rows : List DesktopRuntimeDiagEvent) : List DesktopRuntimeDiagEvent :=
  if rows.length > MAX_EVENTS then rows.drop (rows.length - MAX_EVENTS) else rows

/-- `load_runtime_events_from_path` from main.rs: unreadable or unparseable
files yield the empty list, and the loaded rows are capped at 200. -/
def load_runtime_events_from_path (w : World) (path : String) : List DesktopRuntimeDiagEvent :=
  match w.file path with
  | none => []
  | some rows => cap_events rows

/-- `persist_runtime_events` from main.rs: best-effort mirror of the buffer to
the diagnostics path (no-op when no path is resolved). -/
def persist_runtime_events (s : RuntimeProcessState) (w : World) : World :=
  match s.diagnostics_path with
  | none => w
  | some path => ⟨fun p => if p = path then some s.events else w.file p⟩

/-- `ensure_diagnostics_state` from main.rs. -/
def ensure_diagnostics_state (os : OsEnv) (s : RuntimeProcessState) (w : World)
    (data_dir_hint : Option String) : RuntimeProcessState × World :=
  let next_path :=
    match data_dir_hint with
    | some raw =>
      if raw.trim.isEmpty then
        s.diagnostics_path.getD (diagnostics_path_for_data_dir os none)
      else diagnostics_path_for_data_dir os (some raw)
    | none => s.diagnostics_path.getD (diagnostics_path_for_data_dir os none)
  let changed : Bool :=
    match s.diagnostics_path with
    | some current => decide (current ≠ next_path)
    | none => true
  if changed then
    let loaded := load_runtime_events_from_path w next_path
    let loaded := if !s.events.isEmpty then cap_events (loaded ++ s.events) else loaded
    let s' := { s with events := loaded, diagnostics_path := some next_path }
    (s', persist_runtime_events s' w)
  else
    if s.events.isEmpty then
      match s.diagnostics_path with
      | some path => ({ s with events := load_runtime_events_from_path w path }, w)
      | none => (s, w)
    else (s, w)

/-- `push_runtime_event` from main.rs: resolve the diagnostics path, append a
normalized event, cap at 200, persist. -/
def push_runtime_event (os : OsEnv) (now : Nat) (s : RuntimeProcessState) (w : World)
    (level source message : String) : RuntimeProcessState × World :=
  let sw := ensure_diagnostics_state os s w none
  let event : DesktopRuntimeDiagEvent :=
    ⟨now, level.trim.toLower, source.trim.toLower, message⟩
  let s' := { sw.1 with events := cap_events (sw.1.events ++ [event]) }
  (s', persist_runtime_events s' sw.2)

/-- `resolve_workspace_root` from main.rs: env override or a fixed location
relative to the manifest directory (the function never returns `Err`). -/
def resolve_workspace_root (os : OsEnv) : Except String String :=
  match os.getenv "PQA_WORKSPACE_ROOT" with
  | some raw =>
    match normalize_path raw with
    | some path => Except.ok path
    | none => Except.ok (pathJoin (pathJoin os.manifestDir "..") "..")
  | none => Except.ok (pathJoin (pathJoin os.manifestDir "..") "..")

/-- `load_runtime_profile` from main.rs: total; empty path, read failure and
parse failure all fall back to the default (all-fields-absent) profile. -/
def load_runtime_profile (fs : FsEnv) (profile_path : Option String) : RuntimeProfile :=
  match profile_path.bind normalize_path with
  | none => {}
  | some path =>
    match fs.readFile path with
    | some raw => (fs.parseProfile raw).getD {}
    | none => {}

/-- `clear_launch_state` from main.rs. -/
def clear_launch_state (s : RuntimeProcessState) : RuntimeProcessState :=
  { s with auto_restart := false, restart_count := 0, last_restart_ms := none,
           launch_config := none }

/-- `stop_processes` from main.rs: `stop_child` force-kills and drops each of
the three handles (kill/wait failures suppressed), then clears `running`. -/
def stop_processes (s : RuntimeProcessState) : RuntimeProcessState :=
  { s with web := none, backend := none, mongo := none, running := false }

/-- `stop_all` from main.rs. -/
def stop_all (s : RuntimeProcessState) : RuntimeProcessState :=
  clear_launch_state (stop_processes s)

/-- `is_backend_required` from main.rs. -/
def is_backend_required (config : RuntimeLaunchConfig) : Bool :=
  decide (config.mode = RuntimeMode.LocalFullstack)

/-- `is_mongo_required` from main.rs. -/
def is_mongo_required (config : RuntimeLaunchConfig) : Bool :=
  decide (config.mode = RuntimeMode.LocalFullstack) && config.mongo_bin.isSome

/-- `recompute_running` from main.rs: the §3 running predicate. -/
def recompute_running (s : RuntimeProcessState) : Bool :=
  match s.launch_config with
  | none => false
  | some config =>
    if s.web.isNone then false
    else if is_backend_required config && s.backend.isNone then false
    else if is_mongo_required config && s.mongo.isNone then false
    else true

/-- Outcome the OS gives one spawn attempt (`Command::spawn`). -/
inductive SpawnOutcome where
  | ok (pid : Nat)
  | fail (err : String)
deriving DecidableEq, Repr

/-- Outcome of one non-blocking `Child::try_wait` poll. -/
inductive PollOutcome where
  | stillRunning
  | exited (code : Option Int)
  | pollError
deriving DecidableEq, Repr

/-- Per-process poll outcomes consumed by `poll_process_exits` (used only for
handles that are actually present). -/
structure PollEnv where
  web : PollOutcome
  backend : PollOutcome
  mongo : PollOutcome

/-- Spawn outcomes and port-readiness answers for one spawning phase (either
the watchdog restart pass or the start spawn pass). -/
structure SpawnEnv where
  web : SpawnOutcome
  backend : SpawnOutcome
  mongo : SpawnOutcome
  webReady : Bool
  backendReady : Bool

/-- Environment of one `reconcile_runtime_state` run. -/
structure ReconcileEnv where
  os : OsEnv
  poll : PollEnv
  restart : SpawnEnv
  now : Nat

/-- Environment of one `desktop_runtime_start` call. -/
structure StartEnv where
  reconcileEnv : ReconcileEnv
  fs : FsEnv
  spawn : SpawnEnv

/-- `spawn_mongo` from main.rs: only spawns under `LocalFullstack` with a
configured binary; argument construction is OS-side and not modelled. -/
def spawn_mongo (out : SpawnOutcome) (config : RuntimeLaunchConfig) :
    Except String (Option Child) :=
  if config.mode ≠ RuntimeMode.LocalFullstack then Except.ok none
  else
    match config.mongo_bin with
    | none => Except.ok none
    | some _ =>
      match out with
      | SpawnOutcome.ok pid => Except.ok (some ⟨pid⟩)
      | SpawnOutcome.fail err =>
        Except.error ("failed to start mongo sidecar: " ++ err)

/-- `spawn_backend` from main.rs. -/
def spawn_backend (out : SpawnOutcome) (config : RuntimeLaunchConfig) :
    Except String (Option Child) :=
  if config.mode ≠ RuntimeMode.LocalFullstack then Except.ok none
  else
    match out with
    | SpawnOutcome.ok pid => Except.ok (some ⟨pid⟩)
    | SpawnOutcome.fail err =>
      Except.error ("failed to start backend sidecar: " ++ err)

/-- `spawn_web` from main.rs: the web process is always spawned. -/
def spawn_web (out : SpawnOutcome) (_config : RuntimeLaunchConfig) :
    Except String Child :=
  match out with
  | SpawnOutcome.ok pid => Except.ok ⟨pid⟩
  | SpawnOutcome.fail err =>
    Except.error ("failed to start web sidecar: " ++ err)

/-- `describe_exit` from main.rs. -/
def describe_exit (name : String) (code : Option Int) : String :=
  match code with
  | some c => name ++ " exited with code " ++ toString c
  | none => name ++ " exited"

/-- One arm of `poll_process_exits`: poll a single handle. -/
def poll_one (out : PollOutcome) (name : String) (child : Option Child) :
    Option Child × List (String × String) :=
  match child with
  | none => (none, [])
  | some c =>
    match out with
    | PollOutcome.stillRunning => (some c, [])
    | PollOutcome.exited code => (none, [(name, describe_exit name code)])
    | PollOutcome.pollError =>
      (none, [(name, name ++ " process status check failed")])

/-- `poll_process_exits` from main.rs: non-blocking exit poll over the three
handles; exited or error-polling processes are removed and described. -/
def poll_process_exits (env : PollEnv) (s : RuntimeProcessState) :
    RuntimeProcessState × List (String × String) :=
  let rw := poll_one env.web "web" s.web
  let rb := poll_one env.backend "backend" s.backend
  let rm := poll_one env.mongo "mongo" s.mongo
  ({ s with web := rw.1, backend := rb.1, mongo := rm.1 }, rw.2 ++ rb.2 ++ rm.2)

/-- `u32::saturating_add(1)` on the restart counter. -/
def sat_add_u32 (a : Nat) : Nat := min (a + 1) 4294967295

/-- The exit-logging loop at the top of `reconcile_runtime_state`: push one
warning event per exited process. -/
def log_exits (os : OsEnv) (now : Nat) (sw : RuntimeProcessState × World)
    (exited : List (String × String)) : RuntimeProcessState × World :=
  exited.foldl (fun sw ev => push_runtime_event os now sw.1 sw.2 "warn" ev.1 ev.2) sw

/-- The web block of `restart_missing_processes` (main.rs lines 542–550). -/
def restart_web_step (os : OsEnv) (now : Nat) (env : SpawnEnv)
    (config : RuntimeLaunchConfig) (s : RuntimeProcessState) (w : World) :
    (RuntimeProcessState × World) × Except String (List String) :=
  if s.web.isNone then
    let sw := push_runtime_event os now s w "warn" "watchdog" "Restarting web sidecar"
    match spawn_web env.web config with
    | Except.error e => (sw, Except.error e)
    | Except.ok child =>
      let s1 := { sw.1 with web := some child }
      if env.webReady then ((s1, sw.2), Except.ok ["web"])
      else (({ s1 with web := none }, sw.2),
            Except.error "web did not become ready after restart")
  else ((s, w), Except.ok [])

/-- The backend block of `restart_missing_processes` (main.rs lines 552–560). -/
def restart_backend_step (os : OsEnv) (now : Nat) (env : SpawnEnv)
    (config : RuntimeLaunchConfig) (s : RuntimeProcessState) (w : World)
    (restarted : List String) :
    (RuntimeProcessState × World) × Except String (List String) :=
  if is_backend_required config && s.backend.isNone then
    let sw := push_runtime_event os now s w "warn" "watchdog" "Restarting backend sidecar"
    match spawn_backend env.backend config with
    | Except.error e => (sw, Except.error e)
    | Except.ok child =>
      let s1 := { sw.1 with backend := child }
      if env.backendReady then ((s1, sw.2), Except.ok (restarted ++ ["backend"]))
      else (({ s1 with backend := none }, sw.2),
            Except.error "backend did not become ready after restart")
  else ((s, w), Except.ok restarted)

/-- The mongo block of `restart_missing_processes` (main.rs lines 562–568). -/
def restart_mongo_step (os : OsEnv) (now : Nat) (env : SpawnEnv)
    (config : RuntimeLaunchConfig) (s : RuntimeProcessState) (w : World)
    (restarted : List String) :
    (RuntimeProcessState × World) × Except String (List String) :=
  if is_mongo_required config && s.mongo.isNone then
    let sw := push_runtime_event os now s w "warn" "watchdog" "Restarting mongo sidecar"
    match spawn_mongo env.mongo config with
    | Except.error e => (sw, Except.error e)
    | Except.ok child =>
      let s1 := { sw.1 with mongo := child }
      ((s1, sw.2),
       Except.ok (if child.isSome then restarted ++ ["mongo"] else restarted))
  else ((s, w), Except.ok restarted)

/-- The bookkeeping tail of `restart_missing_processes` (main.rs lines
570–580): on any successful restart bump the counter, stamp the time and log
the recovery event. -/
def restart_finish (os : OsEnv) (now : Nat) (s : RuntimeProcessState) (w : World)
    (restarted : List String) :
    (RuntimeProcessState × World) × Except String (List String) :=
  if restarted.isEmpty then ((s, w), Except.ok restarted)
  else
    let s1 := { s with restart_count := sat_add_u32 s.restart_count,
                       last_restart_ms := some now }
    let sw := push_runtime_event os now s1 w "info" "watchdog"
      ("Recovered sidecars: " ++ String.intercalate ", " restarted)
    (sw, Except.ok restarted)

/-- `restart_missing_processes` from main.rs: restart every currently-missing
required process in order web → backend → mongo, with 30s readiness waits for
web and backend; on any restart, bump the counter and stamp the time.  Any
failure aborts the remaining restarts (`?` propagation). -/
def restart_missing_processes (os : OsEnv) (now : Nat) (env : SpawnEnv)
    (s : RuntimeProcessState) (w : World) :
    (RuntimeProcessState × World) × Except String (List String) :=
  match s.launch_config with
  | none => ((s, w), Except.ok [])
  | some config =>
    let ws := restart_web_step os now env config s w
    match ws.2 with
    | Except.error e => (ws.1, Except.error e)
    | Except.ok restarted =>
      let bs := restart_backend_step os now env config ws.1.1 ws.1.2 restarted
      match bs.2 with
      | Except.error e => (bs.1, Except.error e)
      | Except.ok restarted =>
        let ms := restart_mongo_step os now env config bs.1.1 bs.1.2 restarted
        match ms.2 with
        | Except.error e => (ms.1, Except.error e)
        | Except.ok restarted => restart_finish os now ms.1.1 ms.1.2 restarted

/-- The observation phase of `reconcile_runtime_state` (main.rs lines
584–592): poll the three handles, log one warning event per exited process
and record their joint description in `last_error`.  Returns the updated
state/world and the exited list. -/
def reconcile_observe (env : ReconcileEnv) (s : RuntimeProcessState) (w : World) :
    (RuntimeProcessState × World) × List (String × String) :=
  let polled := poll_process_exits env.poll s
  let exited := polled.2
  let sw1 :=
    if exited.isEmpty then (polled.1, w)
    else
      let sw := log_exits env.os env.now (polled.1, w) exited
      ({ sw.1 with
          last_error := some (String.intercalate " | " (exited.map Prod.snd)) }, sw.2)
  (sw1, exited)

/-- The `should_attempt_restart` condition of `reconcile_runtime_state`
(main.rs line 594), on the observed state: restart only if `autoRestart` is
enabled, a config exists, and something exited or the running predicate
fails. -/
def should_attempt_restart (env : ReconcileEnv) (s : RuntimeProcessState) (w : World) :
    Bool :=
  (reconcile_observe env s w).1.1.auto_restart
    && (reconcile_observe env s w).1.1.launch_config.isSome
    && (!(reconcile_observe env s w).2.isEmpty
        || !recompute_running (reconcile_observe env s w).1.1)

/-- The `recently_restarted` condition of `reconcile_runtime_state` (main.rs
lines 597–600): the last restart is less than 90 000 ms in the past. -/
def recently_restarted (env : ReconcileEnv) (s : RuntimeProcessState) (w : World) :
    Bool :=
  match (reconcile_observe env s w).1.1.last_restart_ms with
  | some last => decide (env.now - last < 90000)
  | none => false

/-- `reconcile_runtime_state` from main.rs: poll exits, log them, decide on a
restart (with the 90s/6-restart circuit breaker), recompute `running`. -/
def reconcile_runtime_state (env : ReconcileEnv) (s : RuntimeProcessState) (w : World) :
    RuntimeProcessState × World :=
  let ob := reconcile_observe env s w
  let sw1 := ob.1
  let sw2 :=
    if should_attempt_restart env s w then
      if recently_restarted env s w && decide (6 ≤ sw1.1.restart_count) then
        let message := "Auto-restart disabled after repeated sidecar failures"
        let sw := push_runtime_event env.os env.now
          { sw1.1 with auto_restart := false } sw1.2 "error" "watchdog" message
        ({ sw.1 with last_error := some message }, sw.2)
      else
        let rr := restart_missing_processes env.os env.now env.restart sw1.1 sw1.2
        match rr.2 with
        | Except.error err =>
          let message := "Auto-restart failed: " ++ err
          let sw := push_runtime_event env.os env.now rr.1.1 rr.1.2 "error" "watchdog" message
          ({ sw.1 with last_error := some message }, sw.2)
        | Except.ok _ => rr.1
    else sw1
  ({ sw2.1 with running := recompute_running sw2.1 }, sw2.2)

/-- `snapshot_status` from main.rs. -/
def snapshot_status (s : RuntimeProcessState) : DesktopRuntimeStatus where
  running := s.running
  mode := s.mode.as_str
  web_pid := s.web.map Child.id
  backend_pid := s.backend.map Child.id
  mongo_pid := s.mongo.map Child.id
  started_at_ms := s.started_at_ms
  last_error := s.last_error
  web_port := s.web_port
  backend_port := s.backend_port
  mongo_port := s.mongo_port
  backend_url := s.backend_url
  auto_restart := s.auto_restart
  restart_count := s.restart_count
  last_restart_ms := s.last_restart_ms
  diagnostics_path := s.diagnostics_path

/-- `desktop_runtime_status` from main.rs. -/
def desktop_runtime_status (env : ReconcileEnv) (s : RuntimeProcessState) (w : World) :
    (RuntimeProcessState × World) × DesktopRuntimeStatus :=
  let sw := ensure_diagnostics_state env.os s w none
  let sw := reconcile_runtime_state env sw.1 sw.2
  (sw, snapshot_status sw.1)

/-- `u32::clamp(lo, hi)` (for `lo ≤ hi`). -/
def clampNat (x lo hi : Nat) : Nat := max lo (min x hi)

/-- `desktop_runtime_diagnostics` from main.rs. -/
def desktop_runtime_diagnostics (env : ReconcileEnv) (limit : Option Nat)
    (s : RuntimeProcessState) (w : World) :
    (RuntimeProcessState × World) × DesktopRuntimeDiagnostics :=
  let sw := ensure_diagnostics_state env.os s w none
  let sw := reconcile_runtime_state env sw.1 sw.2
  let maxN := clampNat (limit.getD 80) 1 300
  let len := sw.1.events.length
  let start := len - maxN
  (sw, ⟨env.now, snapshot_status sw.1, sw.1.events.drop start⟩)

/-- `desktop_runtime_stop` from main.rs (the poisoned-lock failure is the only
`Err` of the source and is outside this single-threaded model). -/
def desktop_runtime_stop (os : OsEnv) (now : Nat) (s : RuntimeProcessState) (w : World) :
    (RuntimeProcessState × World) × DesktopRuntimeStatus :=
  let sw := push_runtime_event os now s w "info" "runtime" "Stop requested"
  let s1 := { stop_all sw.1 with last_error := none }
  let sw2 := push_runtime_event os now s1 sw.2 "info" "runtime" "Runtime stopped"
  (sw2, snapshot_status sw2.1)

/-- The pure launch-plan resolution of `desktop_runtime_start` (main.rs lines
694–770, hoisted into one function: profile-path and profile resolution, mode,
ports, workspace validation, backend URL, session id, binaries).  The
interleaved `ensure_diagnostics_state` call touches only diagnostics state and
stays in `desktop_runtime_start`.  Returns the resolved profile path, the
loaded profile and either the `ConfigurationError` or the launch plan. -/
def resolve_launch_plan (os : OsEnv) (fs : FsEnv) (now : Nat)
    (req : DesktopRuntimeStartRequest) :
    String × RuntimeProfile × Except String RuntimeLaunchConfig :=
  let profile_path :=
    ((req.profile_path).orElse (fun _ => os.getenv "RUNTIME_PROFILE_PATH")).getD ""
  let profile := load_runtime_profile fs (some profile_path)
  let mode_raw :=
    (((req.mode).orElse (fun _ => os.getenv "APP_RUNTIME_MODE")).orElse
      (fun _ => profile.mode)).getD "local_fullstack"
  let mode := RuntimeMode.from_raw mode_raw
  let ports := profile.local_ports.getD {}
  let web_port := ports.web.getD 3000
  let backend_port := ports.backend.getD 8080
  let mongo_port := ports.mongo.getD 27017
  let web_dev := req.web_dev.getD false
  let planRes : Except String RuntimeLaunchConfig :=
    match resolve_workspace_root os with
    | Except.error e => Except.error e
    | Except.ok workspace_root =>
      let web_dir := pathJoin workspace_root "web"
      let backend_dir := pathJoin workspace_root "backend"
      if !os.dirExists web_dir || !os.dirExists backend_dir then
        Except.error ("workspace root not valid: web=" ++ web_dir ++ " backend=" ++ backend_dir)
      else
        let runtime_profile_for_env :=
          if profile_path.trim.isEmpty then none else some profile_path
        let backend_url :=
          if mode = RuntimeMode.RemoteSlim then
            profile.backend_url.getD "http://127.0.0.1:8080"
          else "http://127.0.0.1:" ++ toString backend_port
        let desktop_session_id :=
          (os.getenv "DESKTOP_SESSION_ID").getD ("desktop-" ++ toString now)
        let mongo_bin :=
          ((req.mongo_bin).orElse (fun _ => os.getenv "MONGOD_BIN")).bind (fun value =>
            let trimmed := value.trim
            if trimmed.isEmpty then none else some trimmed)
        let python_bin :=
          ((req.python_bin).orElse (fun _ => os.getenv "PYTHON_BIN")).getD "python3"
        Except.ok
          { mode := mode, web_port := web_port, backend_port := backend_port,
            mongo_port := mongo_port, backend_url := backend_url,
            desktop_session_id := desktop_session_id,
            runtime_profile_path := runtime_profile_for_env, web_dev := web_dev,
            mongo_bin := mongo_bin, python_bin := python_bin, web_dir := web_dir,
            backend_dir := backend_dir, data_dir := profile.data_dir }
  (profile_path, profile, planRes)

/-- `desktop_runtime_start` from main.rs: reconcile; no-op when already
running; otherwise resolve the plan, validate, tear down stale handles, set
the config and restart policy, spawn mongo/backend/web, gate on readiness. -/
def desktop_runtime_start (env : StartEnv) (request : Option DesktopRuntimeStartRequest)
    (s : RuntimeProcessState) (w : World) :
    (RuntimeProcessState × World) × Except String DesktopRuntimeStatus :=
  let req := request.getD {}
  let sw0 := reconcile_runtime_state env.reconcileEnv s w
  if sw0.1.running then
    let sw := push_runtime_event env.reconcileEnv.os env.reconcileEnv.now sw0.1 sw0.2
      "info" "runtime" "Start requested while already running"
    (sw, Except.ok (snapshot_status sw.1))
  else
    let plan := resolve_launch_plan env.reconcileEnv.os env.fs env.reconcileEnv.now req
    let profile := plan.2.1
    let sw1 := ensure_diagnostics_state env.reconcileEnv.os sw0.1 sw0.2 profile.data_dir
    match plan.2.2 with
    | Except.error e => (sw1, Except.error e)
    | Except.ok launch =>
      let sw2 := push_runtime_event env.reconcileEnv.os env.reconcileEnv.now
        (stop_processes sw1.1) sw1.2 "info" "runtime"
        ("Start requested: mode=" ++ launch.mode.as_str
          ++ " web_port=" ++ toString launch.web_port
          ++ " backend_port=" ++ toString launch.backend_port
          ++ " mongo_port=" ++ toString launch.mongo_port)
      let s2 := { sw2.1 with launch_config := some launch, auto_restart := true,
                             restart_count := 0, last_restart_ms := none }
      let mongoRes :=
        if is_mongo_required launch then spawn_mongo env.spawn.mongo launch
        else Except.ok none
      match mongoRes with
      | Except.error e => ((s2, sw2.2), Except.error e)
      | Except.ok mongoChild =>
        let s3 := { s2 with mongo := mongoChild }
        let backendRes :=
          if is_backend_required launch then spawn_backend env.spawn.backend launch
          else Except.ok none
        match backendRes with
        | Except.error e => ((s3, sw2.2), Except.error e)
        | Except.ok backendChild =>
          let s4 := { s3 with backend := backendChild }
          match spawn_web env.spawn.web launch with
          | Except.error e => ((s4, sw2.2), Except.error e)
          | Except.ok webChild =>
            let s5 := { s4 with web := some webChild }
            let web_ok := env.spawn.webReady
            let backend_ok :=
              if is_backend_required launch then env.spawn.backendReady else true
            if !web_ok || !backend_ok then
              let s6 := stop_all s5
              let reason :=
                if !web_ok && !backend_ok then
                  "web and backend did not become ready in time"
                else if !web_ok then "web did not become ready in time"
                else "backend did not become ready in time"
              let sw7 := push_runtime_event env.reconcileEnv.os env.reconcileEnv.now
                s6 sw2.2 "error" "runtime" reason
              (({ sw7.1 with last_error := some reason }, sw7.2), Except.error reason)
            else
              let s6 := { s5 with running := true, mode := launch.mode,
                                  started_at_ms := some env.reconcileEnv.now,
                                  last_error := none,
                                  web_port := launch.web_port,
                                  backend_port := launch.backend_port,
                                  mongo_port := launch.mongo_port,
                                  backend_url := launch.backend_url }
              let sw7 := push_runtime_event env.reconcileEnv.os env.reconcileEnv.now
                s6 sw2.2 "info" "runtime" "Runtime started successfully"
              (sw7, Except.ok (snapshot_status sw7.1))

/-- The supervisor states reachable from the initial (`Default`) state by any
sequence of the four API operations, under arbitrary environments and an
arbitrary initial on-disk world. -/
inductive Reachable : RuntimeProcessState × World → Prop where
  | init (w : World) : Reachable (default_runtime_state, w)
  | step_status (env : ReconcileEnv) {sw : RuntimeProcessState × World} :
      Reachable sw → Reachable (desktop_runtime_status env sw.1 sw.2).1
  | step_diagnostics (env : ReconcileEnv) (limit : Option Nat)
      {sw : RuntimeProcessState × World} :
      Reachable sw → Reachable (desktop_runtime_diagnostics env limit sw.1 sw.2).1
  | step_stop (os : OsEnv) (now : Nat) {sw : RuntimeProcessState × World} :
      Reachable sw → Reachable (desktop_runtime_stop os now sw.1 sw.2).1
  | step_start (env : StartEnv) (request : Option DesktopRuntimeStartRequest)
      {sw : RuntimeProcessState × World} :
      Reachable sw → Reachable (desktop_runtime_start env request sw.1 sw.2).1

/-- Equality of all supervisor-state fields except the event buffer and the
diagnostics path (the only fields diagnostics housekeeping may touch). -/
structure SameCore (a b : RuntimeProcessState) : Prop where
  running : a.running = b.running
  mode : a.mode = b.mode
  web : a.web = b.web
  backend : a.backend = b.backend
  mongo : a.mongo = b.mongo
  started_at_ms : a.started_at_ms = b.started_at_ms
  last_error : a.last_error = b.last_error
  web_port : a.web_port = b.web_port
  backend_port : a.backend_port = b.backend_port
  mongo_port : a.mongo_port = b.mongo_port
  backend_url : a.backend_url = b.backend_url
  auto_restart : a.auto_restart = b.auto_restart
  restart_count : a.restart_count = b.restart_count
  last_restart_ms : a.last_restart_ms = b.last_restart_ms
  launch_config : a.launch_config = b.launch_config

/-- Permissive OS environment used in concrete witness scenarios. -/
def osW : OsEnv := ⟨fun _ => none, some "/cw", fun _ => true, "/m"⟩

/-- OS environment in which no directory exists (invalid workspace). -/
def osMissing : OsEnv := ⟨fun _ => none, some "/cw", fun _ => false, "/m"⟩

/-- Initially empty on-disk world. -/
def worldW : World := ⟨fun _ => none⟩

/-- File system with no readable profile file. -/
def fsW : FsEnv := ⟨fun _ => none, fun _ => none⟩

/-- Poll answers reporting every live process as still running. -/
def pollW : PollEnv := ⟨PollOutcome.stillRunning, PollOutcome.stillRunning,
  PollOutcome.stillRunning⟩

/-- Spawn answers in which every spawn succeeds and every port gets ready. -/
def spawnW : SpawnEnv := ⟨SpawnOutcome.ok 11, SpawnOutcome.ok 12, SpawnOutcome.ok 13,
  true, true⟩

/-- A `RemoteSlim` launch plan (only the web process is required). -/
def cfgW : RuntimeLaunchConfig where
  mode := RuntimeMode.RemoteSlim
  web_port := 3000
  backend_port := 8080
  mongo_port := 27017
  backend_url := "http://127.0.0.1:8080"
  desktop_session_id := "s"
  runtime_profile_path := none
  web_dev := false
  mongo_bin := none
  python_bin := "python3"
  web_dir := "/r/web"
  backend_dir := "/r/backend"
  data_dir := none

/-- Supervisor state with 6 restarts on record, the last at t = 0 ms, and the
web process missing (a qualifying failure for the watchdog). -/
def stateBreaker : RuntimeProcessState :=
  { default_runtime_state with
    auto_restart := true
    restart_count := 6
    last_restart_ms := some 0
    launch_config := some cfgW
    diagnostics_path := some "/d/runtime-events.json" }

/-- Supervisor state in which the `RemoteSlim` run is healthy. -/
def stateRunning : RuntimeProcessState :=
  { default_runtime_state with
    running := true
    web := some ⟨1⟩
    launch_config := some cfgW
    diagnostics_path := some "/d/runtime-events.json" }

/-- Reconcile environment sampled at t = 1000 ms (within 90 s of t = 0). -/
def recEnvFresh : ReconcileEnv := ⟨osW, pollW, spawnW, 1000⟩

/-- Reconcile environment sampled at t = 200 000 ms (90 s window elapsed). -/
def recEnvLate : ReconcileEnv := ⟨osW, pollW, spawnW, 200000⟩

/-- Start environment in which every spawn and readiness check succeeds. -/
def startEnvW : StartEnv := ⟨recEnvFresh, fsW, spawnW⟩

/-- Start environment over the directory-less OS (workspace validation must
fail). -/
def startEnvMissing : StartEnv := ⟨⟨osMissing, pollW, spawnW, 1000⟩, fsW, spawnW⟩

/-- The launch plan resolved in the permissive environment (witness input). -/
def planOkW : String × RuntimeProfile × Except String RuntimeLaunchConfig :=
  resolve_launch_plan osW fsW 1000 {}

/-- The launch config extracted from `planOkW` (witness value). -/
def launchW : RuntimeLaunchConfig :=
  match planOkW.2.2 with
  | Except.ok l => l
  | Except.error _ => cfgW

theorem SameCore.refl (a : RuntimeProcessState) : SameCore a a :=
  ⟨rfl, rfl, rfl, rfl, rfl, rfl, rfl, rfl, rfl, rfl, rfl, rfl, rfl, rfl, rfl⟩

theorem SameCore.trans {a b c : RuntimeProcessState}
    (h1 : SameCore a b) (h2 : SameCore b c) : SameCore a c where
  running := h1.running.trans h2.running
  mode := h1.mode.trans h2.mode
  web := h1.web.trans h2.web
  backend := h1.backend.trans h2.backend
  mongo := h1.mongo.trans h2.mongo
  started_at_ms := h1.started_at_ms.trans h2.started_at_ms
  last_error := h1.last_error.trans h2.last_error
  web_port := h1.web_port.trans h2.web_port
  backend_port := h1.backend_port.trans h2.backend_port
  mongo_port := h1.mongo_port.trans h2.mongo_port
  backend_url := h1.backend_url.trans h2.backend_url
  auto_restart := h1.auto_restart.trans h2.auto_restart
  restart_count := h1.restart_count.trans h2.restart_count
  last_restart_ms := h1.last_restart_ms.trans h2.last_restart_ms
  launch_config := h1.launch_config.trans h2.launch_config

theorem cap_events_length_le (l : List DesktopRuntimeDiagEvent) :
    (cap_events l).length ≤ MAX_EVENTS := by
  simp only [cap_events]
  split
  · simp only [List.length_drop]
    omega
  · omega

theorem cap_events_of_le {l : List DesktopRuntimeDiagEvent}
    (h : l.length ≤ MAX_EVENTS) : cap_events l = l := by
  simp only [cap_events]
  rw [if_neg (by omega)]

theorem cap_events_concat (l : List DesktopRuntimeDiagEvent)
    (e : DesktopRuntimeDiagEvent) :
    ∃ z, cap_events (l ++ [e]) = z ++ [e] := by
  simp only [cap_events]
  split
  · refine ⟨l.drop ((l ++ [e]).length - MAX_EVENTS), ?_⟩
    rw [List.drop_append_of_le_length
      (by simp only [List.length_append, List.length_singleton, MAX_EVENTS]; omega)]
  · exact ⟨l, rfl⟩

theorem cap_events_concat_getLast (l : List DesktopRuntimeDiagEvent)
    (e : DesktopRuntimeDiagEvent) :
    (cap_events (l ++ [e])).getLast? = some e := by
  obtain ⟨z, hz⟩ := cap_events_concat l e
  rw [hz, List.getLast?_concat]

theorem ensure_diagnostics_shape (os : OsEnv) (s : RuntimeProcessState) (w : World)
    (hint : Option String) :
    ∃ ev p, (ensure_diagnostics_state os s w hint).1 =
      { s with events := ev, diagnostics_path := some p } := by
  simp only [ensure_diagnostics_state]
  split
  · exact ⟨_, _, rfl⟩
  · rename_i hch
    split
    · split
      · rename_i path hpath
        exact ⟨_, path, by rw [← hpath]⟩
      · rename_i hpath
        rw [hpath] at hch
        simp at hch
    · rcases hp : s.diagnostics_path with _ | path
      · rw [hp] at hch
        simp at hch
      · exact ⟨s.events, path, by rw [← hp]⟩

theorem ensure_sameCore (os : OsEnv) (s : RuntimeProcessState) (w : World)
    (hint : Option String) : SameCore (ensure_diagnostics_state os s w hint).1 s := by
  obtain ⟨ev, p, h⟩ := ensure_diagnostics_shape os s w hint
  rw [h]
  exact ⟨rfl, rfl, rfl, rfl, rfl, rfl, rfl, rfl, rfl, rfl, rfl, rfl, rfl, rfl, rfl⟩

theorem ensure_path_isSome (os : OsEnv) (s : RuntimeProcessState) (w : World)
    (hint : Option String) :
    (ensure_diagnostics_state os s w hint).1.diagnostics_path.isSome = true := by
  obtain ⟨ev, p, h⟩ := ensure_diagnostics_shape os s w hint
  rw [h]
  rfl

theorem load_events_le (w : World) (path : String) :
    (load_runtime_events_from_path w path).length ≤ MAX_EVENTS := by
  simp only [load_runtime_events_from_path]
  split
  · simp [MAX_EVENTS]
  · exact cap_events_length_le _

theorem ensure_events_le (os : OsEnv) (s : RuntimeProcessState) (w : World)
    (hint : Option String) (h : s.events.length ≤ MAX_EVENTS) :
    (ensure_diagnostics_state os s w hint).1.events.length ≤ MAX_EVENTS := by
  simp only [ensure_diagnostics_state]
  split
  · split
    · exact cap_events_length_le _
    · exact load_events_le _ _
  · split
    · split
      · exact load_events_le _ _
      · exact h
    · exact h

theorem push_sameCore (os : OsEnv) (now : Nat) (s : RuntimeProcessState) (w : World)
    (level source message : String) :
    SameCore (push_runtime_event os now s w level source message).1 s := by
  obtain ⟨ev, p, h⟩ := ensure_diagnostics_shape os s w none
  simp only [push_runtime_event, h]
  exact ⟨rfl, rfl, rfl, rfl, rfl, rfl, rfl, rfl, rfl, rfl, rfl, rfl, rfl, rfl, rfl⟩

theorem push_events_le (os : OsEnv) (now : Nat) (s : RuntimeProcessState) (w : World)
    (level source message : String) :
    (push_runtime_event os now s w level source message).1.events.length ≤ MAX_EVENTS := by
  simp only [push_runtime_event]
  exact cap_events_length_le _

theorem push_getLast (os : OsEnv) (now : Nat) (s : RuntimeProcessState) (w : World)
    (level source message : String) :
    (push_runtime_event os now s w level source message).1.events.getLast? =
      some ⟨now, level.trim.toLower, source.trim.toLower, message⟩ := by
  simp only [push_runtime_event]
  exact cap_events_concat_getLast _ _

theorem push_path_isSome (os : OsEnv) (now : Nat) (s : RuntimeProcessState) (w : World)
    (level source message : String) :
    (push_runtime_event os now s w level source message).1.diagnostics_path.isSome = true := by
  obtain ⟨ev, p, h⟩ := ensure_diagnostics_shape os s w none
  simp only [push_runtime_event, h]
  rfl

theorem push_persists (os : OsEnv) (now : Nat) (s : RuntimeProcessState) (w : World)
    (level source message : String) :
    ∃ p, (push_runtime_event os now s w level source message).1.diagnostics_path = some p ∧
      (push_runtime_event os now s w level source message).2.file p =
        some (push_runtime_event os now s w level source message).1.events := by
  obtain ⟨ev, p, h⟩ := ensure_diagnostics_shape os s w none
  refine ⟨p, ?_, ?_⟩ <;> simp [push_runtime_event, h, persist_runtime_events]

theorem log_exits_sameCore (os : OsEnv) (now : Nat) (ex : List (String × String)) :
    ∀ sw : RuntimeProcessState × World, SameCore (log_exits os now sw ex).1 sw.1 := by
  induction ex with
  | nil => exact fun sw => SameCore.refl _
  | cons hd tl ih =>
    intro sw
    simp only [log_exits, List.foldl_cons]
    exact SameCore.trans (ih _) (push_sameCore os now sw.1 sw.2 "warn" hd.1 hd.2)

theorem log_exits_events_le (os : OsEnv) (now : Nat) (ex : List (String × String)) :
    ∀ sw : RuntimeProcessState × World, sw.1.events.length ≤ MAX_EVENTS →
      (log_exits os now sw ex).1.events.length ≤ MAX_EVENTS := by
  induction ex with
  | nil => exact fun sw h => h
  | cons hd tl ih =>
    intro sw h
    simp only [log_exits, List.foldl_cons]
    exact ih _ (push_events_le os now sw.1 sw.2 "warn" hd.1 hd.2)

theorem poll_launch_config (env : PollEnv) (s : RuntimeProcessState) :
    (poll_process_exits env s).1.launch_config = s.launch_config := rfl

theorem poll_auto_restart (env : PollEnv) (s : RuntimeProcessState) :
    (poll_process_exits env s).1.auto_restart = s.auto_restart := rfl

theorem poll_restart_count (env : PollEnv) (s : RuntimeProcessState) :
    (poll_process_exits env s).1.restart_count = s.restart_count := rfl

theorem poll_last_restart (env : PollEnv) (s : RuntimeProcessState) :
    (poll_process_exits env s).1.last_restart_ms = s.last_restart_ms := rfl

theorem poll_events (env : PollEnv) (s : RuntimeProcessState) :
    (poll_process_exits env s).1.events = s.events := rfl

/-- Field facts about the observation phase: everything except the handles,
`last_error`, the events and the diagnostics path is preserved, and the
handles coincide with the polled handles. -/
theorem observe_core (env : ReconcileEnv) (s : RuntimeProcessState) (w : World) :
    (reconcile_observe env s w).1.1.auto_restart = s.auto_restart ∧
    (reconcile_observe env s w).1.1.launch_config = s.launch_config ∧
    (reconcile_observe env s w).1.1.restart_count = s.restart_count ∧
    (reconcile_observe env s w).1.1.last_restart_ms = s.last_restart_ms ∧
    (reconcile_observe env s w).1.1.web = (poll_process_exits env.poll s).1.web ∧
    (reconcile_observe env s w).1.1.backend = (poll_process_exits env.poll s).1.backend ∧
    (reconcile_observe env s w).1.1.mongo = (poll_process_exits env.poll s).1.mongo ∧
    (reconcile_observe env s w).2 = (poll_process_exits env.poll s).2 := by
  simp only [reconcile_observe]
  split
  · exact ⟨rfl, rfl, rfl, rfl, rfl, rfl, rfl, trivial⟩
  · have hlog := log_exits_sameCore env.os env.now (poll_process_exits env.poll s).2
      ((poll_process_exits env.poll s).1, w)
    exact ⟨hlog.auto_restart, hlog.launch_config, hlog.restart_count,
      hlog.last_restart_ms, hlog.web, hlog.backend, hlog.mongo, trivial⟩

theorem observe_events_le (env : ReconcileEnv) (s : RuntimeProcessState) (w : World)
    (h : s.events.length ≤ MAX_EVENTS) :
    (reconcile_observe env s w).1.1.events.length ≤ MAX_EVENTS := by
  simp only [reconcile_observe]
  split
  · exact h
  · exact log_exits_events_le env.os env.now _ _ h

@[simp] theorem push_running (os : OsEnv) (now : Nat) (s : RuntimeProcessState)
    (w : World) (level source message : String) :
    (push_runtime_event os now s w level source message).1.running = s.running :=
  (push_sameCore os now s w level source message).running

@[simp] theorem push_mode (os : OsEnv) (now : Nat) (s : RuntimeProcessState)
    (w : World) (level source message : String) :
    (push_runtime_event os now s w level source message).1.mode = s.mode :=
  (push_sameCore os now s w level source message).mode

@[simp] theorem push_web (os : OsEnv) (now : Nat) (s : RuntimeProcessState)
    (w : World) (level source message : String) :
    (push_runtime_event os now s w level source message).1.web = s.web :=
  (push_sameCore os now s w level source message).web

@[simp] theorem push_backend (os : OsEnv) (now : Nat) (s : RuntimeProcessState)
    (w : World) (level source message : String) :
    (push_runtime_event os now s w level source message).1.backend = s.backend :=
  (push_sameCore os now s w level source message).backend

@[simp] theorem push_mongo (os : OsEnv) (now : Nat) (s : RuntimeProcessState)
    (w : World) (level source message : String) :
    (push_runtime_event os now s w level source message).1.mongo = s.mongo :=
  (push_sameCore os now s w level source message).mongo

@[simp] theorem push_started_at (os : OsEnv) (now : Nat) (s : RuntimeProcessState)
    (w : World) (level source message : String) :
    (push_runtime_event os now s w level source message).1.started_at_ms = s.started_at_ms :=
  (push_sameCore os now s w level source message).started_at_ms

@[simp] theorem push_last_error (os : OsEnv) (now : Nat) (s : RuntimeProcessState)
    (w : World) (level source message : String) :
    (push_runtime_event os now s w level source message).1.last_error = s.last_error :=
  (push_sameCore os now s w level source message).last_error

@[simp] theorem push_auto_restart (os : OsEnv) (now : Nat) (s : RuntimeProcessState)
    (w : World) (level source message : String) :
    (push_runtime_event os now s w level source message).1.auto_restart = s.auto_restart :=
  (push_sameCore os now s w level source message).auto_restart

@[simp] theorem push_restart_count (os : OsEnv) (now : Nat) (s : RuntimeProcessState)
    (w : World) (level source message : String) :
    (push_runtime_event os now s w level source message).1.restart_count = s.restart_count :=
  (push_sameCore os now s w level source message).restart_count

@[simp] theorem push_last_restart (os : OsEnv) (now : Nat) (s : RuntimeProcessState)
    (w : World) (level source message : String) :
    (push_runtime_event os now s w level source message).1.last_restart_ms = s.last_restart_ms :=
  (push_sameCore os now s w level source message).last_restart_ms

@[simp] theorem push_launch_config (os : OsEnv) (now : Nat) (s : RuntimeProcessState)
    (w : World) (level source message : String) :
    (push_runtime_event os now s w level source message).1.launch_config = s.launch_config :=
  (push_sameCore os now s w level source message).launch_config

theorem web_step_core (os : OsEnv) (now : Nat) (env : SpawnEnv)
    (config : RuntimeLaunchConfig) (s : RuntimeProcessState) (w : World) :
    (restart_web_step os now env config s w).1.1.auto_restart = s.auto_restart ∧
    (restart_web_step os now env config s w).1.1.launch_config = s.launch_config ∧
    (restart_web_step os now env config s w).1.1.running = s.running ∧
    (restart_web_step os now env config s w).1.1.last_error = s.last_error ∧
    (restart_web_step os now env config s w).1.1.restart_count = s.restart_count ∧
    (restart_web_step os now env config s w).1.1.last_restart_ms = s.last_restart_ms ∧
    (s.events.length ≤ MAX_EVENTS →
      (restart_web_step os now env config s w).1.1.events.length ≤ MAX_EVENTS) := by
  simp only [restart_web_step]
  split
  · split
    · simp [push_events_le]
    · split
      · simp [push_events_le]
      · simp [push_events_le]
  · exact ⟨rfl, rfl, rfl, rfl, rfl, rfl, fun h => h⟩

theorem backend_step_core (os : OsEnv) (now : Nat) (env : SpawnEnv)
    (config : RuntimeLaunchConfig) (s : RuntimeProcessState) (w : World)
    (restarted : List String) :
    (restart_backend_step os now env config s w restarted).1.1.auto_restart = s.auto_restart ∧
    (restart_backend_step os now env config s w restarted).1.1.launch_config = s.launch_config ∧
    (restart_backend_step os now env config s w restarted).1.1.running = s.running ∧
    (restart_backend_step os now env config s w restarted).1.1.last_error = s.last_error ∧
    (restart_backend_step os now env config s w restarted).1.1.restart_count = s.restart_count ∧
    (restart_backend_step os now env config s w restarted).1.1.last_restart_ms = s.last_restart_ms ∧
    (s.events.length ≤ MAX_EVENTS →
      (restart_backend_step os now env config s w restarted).1.1.events.length ≤ MAX_EVENTS) := by
  simp only [restart_backend_step]
  split
  · split
    · simp [push_events_le]
    · split
      · simp [push_events_le]
      · simp [push_events_le]
  · exact ⟨rfl, rfl, rfl, rfl, rfl, rfl, fun h => h⟩

theorem mongo_step_core (os : OsEnv) (now : Nat) (env : SpawnEnv)
    (config : RuntimeLaunchConfig) (s : RuntimeProcessState) (w : World)
    (restarted : List String) :
    (restart_mongo_step os now env config s w restarted).1.1.auto_restart = s.auto_restart ∧
    (restart_mongo_step os now env config s w restarted).1.1.launch_config = s.launch_config ∧
    (restart_mongo_step os now env config s w restarted).1.1.running = s.running ∧
    (restart_mongo_step os now env config s w restarted).1.1.last_error = s.last_error ∧
    (restart_mongo_step os now env config s w restarted).1.1.restart_count = s.restart_count ∧
    (restart_mongo_step os now env config s w restarted).1.1.last_restart_ms = s.last_restart_ms ∧
    (s.events.length ≤ MAX_EVENTS →
      (restart_mongo_step os now env config s w restarted).1.1.events.length ≤ MAX_EVENTS) := by
  simp only [restart_mongo_step]
  split
  · split
    · simp [push_events_le]
    · simp [push_events_le]
  · exact ⟨rfl, rfl, rfl, rfl, rfl, rfl, fun h => h⟩

theorem finish_core (os : OsEnv) (now : Nat) (s : RuntimeProcessState) (w : World)
    (restarted : List String) :
    (restart_finish os now s w restarted).1.1.auto_restart = s.auto_restart ∧
    (restart_finish os now s w restarted).1.1.launch_config = s.launch_config ∧
    (restart_finish os now s w restarted).1.1.running = s.running ∧
    (restart_finish os now s w restarted).1.1.last_error = s.last_error ∧
    ((restart_finish os now s w restarted).1.1.restart_count = s.restart_count ∨
      (restart_finish os now s w restarted).1.1.restart_count = sat_add_u32 s.restart_count) ∧
    (s.events.length ≤ MAX_EVENTS →
      (restart_finish os now s w restarted).1.1.events.length ≤ MAX_EVENTS) := by
  simp only [restart_finish]
  split
  · exact ⟨rfl, rfl, rfl, rfl, Or.inl rfl, fun h => h⟩
  · simp [push_events_le]

/-- Core facts about a watchdog restart pass: it never touches `auto_restart`,
`launch_config`, `running` or `last_error`; the restart counter is unchanged
or bumped once (saturating); the buffer stays capped. -/
theorem restart_core (os : OsEnv) (now : Nat) (env : SpawnEnv)
    (s : RuntimeProcessState) (w : World) :
    (restart_missing_processes os now env s w).1.1.auto_restart = s.auto_restart ∧
    (restart_missing_processes os now env s w).1.1.launch_config = s.launch_config ∧
    (restart_missing_processes os now env s w).1.1.running = s.running ∧
    (restart_missing_processes os now env s w).1.1.last_error = s.last_error ∧
    ((restart_missing_processes os now env s w).1.1.restart_count = s.restart_count ∨
      (restart_missing_processes os now env s w).1.1.restart_count =
        sat_add_u32 s.restart_count) ∧
    (s.events.length ≤ MAX_EVENTS →
      (restart_missing_processes os now env s w).1.1.events.length ≤ MAX_EVENTS) := by
  simp only [restart_missing_processes]
  split
  · exact ⟨rfl, rfl, rfl, rfl, Or.inl rfl, fun h => h⟩
  · rename_i config hcfg
    obtain ⟨wa, wb, wc, wd, we, wf, wg⟩ := web_step_core os now env config s w
    split
    · exact ⟨wa, wb, wc, wd, Or.inl we, wg⟩
    · rename_i r1 hok1
      obtain ⟨ba, bb, bc, bd, be, bf, bg⟩ :=
        backend_step_core os now env config
          (restart_web_step os now env config s w).1.1
          (restart_web_step os now env config s w).1.2 r1
      split
      · exact ⟨ba.trans wa, bb.trans wb, bc.trans wc, bd.trans wd,
          Or.inl (be.trans we), fun h => bg (wg h)⟩
      · rename_i r2 hok2
        obtain ⟨ma, mb, mc, md, me, mf, mg⟩ :=
          mongo_step_core os now env config
            (restart_backend_step os now env config
              (restart_web_step os now env config s w).1.1
              (restart_web_step os now env config s w).1.2 r1).1.1
            (restart_backend_step os now env config
              (restart_web_step os now env config s w).1.1
              (restart_web_step os now env config s w).1.2 r1).1.2 r2
        split
        · exact ⟨(ma.trans ba).trans wa, (mb.trans bb).trans wb,
            (mc.trans bc).trans wc, (md.trans bd).trans wd,
            Or.inl ((me.trans be).trans we), fun h => mg (bg (wg h))⟩
        · rename_i r3 hok3
          obtain ⟨fa, fb, fc, fd, fe, fg⟩ := finish_core os now
            (restart_mongo_step os now env config
              (restart_backend_step os now env config
                (restart_web_step os now env config s w).1.1
                (restart_web_step os now env config s w).1.2 r1).1.1
              (restart_backend_step os now env config
                (restart_web_step os now env config s w).1.1
                (restart_web_step os now env config s w).1.2 r1).1.2 r2).1.1
            (restart_mongo_step os now env config
              (restart_backend_step os now env config
                (restart_web_step os now env config s w).1.1
                (restart_web_step os now env config s w).1.2 r1).1.1
              (restart_backend_step os now env config
                (restart_web_step os now env config s w).1.1
                (restart_web_step os now env config s w).1.2 r1).1.2 r2).1.2 r3
          refine ⟨fa.trans ((ma.trans ba).trans wa),
            fb.trans ((mb.trans bb).trans wb),
            fc.trans ((mc.trans bc).trans wc),
            fd.trans ((md.trans bd).trans wd), ?_,
            fun h => fg (mg (bg (wg h)))⟩
          rcases fe with h | h
          · exact Or.inl (h.trans ((me.trans be).trans we))
          · rw [h, (me.trans be).trans we]
            exact Or.inr rfl

/-- `recompute_running` only looks at the config and the three handles. -/
theorem recompute_congr {a b : RuntimeProcessState}
    (h1 : a.launch_config = b.launch_config) (h2 : a.web = b.web)
    (h3 : a.backend = b.backend) (h4 : a.mongo = b.mongo) :
    recompute_running a = recompute_running b := by
  simp only [recompute_running, h1, h2, h3, h4]

/-- At the end of every reconciliation the `running` flag is exactly the
recomputed predicate (never cached). -/
theorem reconcile_running_recomputed (env : ReconcileEnv) (s : RuntimeProcessState)
    (w : World) :
    (reconcile_runtime_state env s w).1.running =
      recompute_running (reconcile_runtime_state env s w).1 := rfl

/-- Unfolding equation: when no restart is warranted, reconciliation is just
the observation phase plus the `running` recomputation. -/
theorem reconcile_eq_no_restart (env : ReconcileEnv) (s : RuntimeProcessState)
    (w : World) (h : should_attempt_restart env s w = false) :
    reconcile_runtime_state env s w =
      ({ (reconcile_observe env s w).1.1 with
          running := recompute_running (reconcile_observe env s w).1.1 },
        (reconcile_observe env s w).1.2) := by
  simp only [reconcile_runtime_state]
  rw [if_neg (by simp [h])]

/-- Unfolding equation: the circuit-breaker branch of reconciliation. -/
theorem reconcile_eq_breaker (env : ReconcileEnv) (s : RuntimeProcessState)
    (w : World) (h1 : should_attempt_restart env s w = true)
    (h2 : (recently_restarted env s w
      && decide (6 ≤ (reconcile_observe env s w).1.1.restart_count)) = true) :
    reconcile_runtime_state env s w =
      (let sw := push_runtime_event env.os env.now
          { (reconcile_observe env s w).1.1 with auto_restart := false }
          (reconcile_observe env s w).1.2 "error" "watchdog"
          "Auto-restart disabled after repeated sidecar failures"
       ({ sw.1 with
            last_error := some "Auto-restart disabled after repeated sidecar failures",
            running := recompute_running sw.1 }, sw.2)) := by
  simp only [reconcile_runtime_state]
  rw [if_pos h1, if_pos h2]
  rfl

/-- Field facts about a full reconciliation: the launch config is preserved,
`autoRestart` is preserved or turned off (never turned on), and the buffer
stays capped. -/
theorem reconcile_core (env : ReconcileEnv) (s : RuntimeProcessState) (w : World) :
    (reconcile_runtime_state env s w).1.launch_config = s.launch_config ∧
    ((reconcile_runtime_state env s w).1.auto_restart = s.auto_restart ∨
      (reconcile_runtime_state env s w).1.auto_restart = false) ∧
    (s.events.length ≤ MAX_EVENTS →
      (reconcile_runtime_state env s w).1.events.length ≤ MAX_EVENTS) := by
  obtain ⟨o1, o2, o3, o4, o5, o6, o7, o8⟩ := observe_core env s w
  simp only [reconcile_runtime_state]
  split
  · split
    · refine ⟨?_, Or.inr ?_, fun h => ?_⟩
      · simp [o2]
      · simp
      · exact push_events_le _ _ _ _ _ _ _
    · obtain ⟨r1, r2, r3, r4, r5, r6⟩ := restart_core env.os env.now env.restart
        (reconcile_observe env s w).1.1 (reconcile_observe env s w).1.2
      split
      · refine ⟨?_, Or.inl ?_, fun h => ?_⟩
        · simp [r2.trans o2]
        · simp [r1.trans o1]
        · exact push_events_le _ _ _ _ _ _ _
      · exact ⟨r2.trans o2, Or.inl (r1.trans o1),
          fun h => r6 (observe_events_le env s w h)⟩
  · exact ⟨o2, Or.inl o1, fun h => observe_events_le env s w h⟩

theorem recompute_sameCore {a b : RuntimeProcessState} (h : SameCore a b) :
    recompute_running a = recompute_running b :=
  recompute_congr h.launch_config h.web h.backend h.mongo

theorem recompute_none {s : RuntimeProcessState} (h : s.launch_config = none) :
    recompute_running s = false := by
  simp [recompute_running, h]

theorem recompute_web_none {s : RuntimeProcessState} (h : s.web = none) :
    recompute_running s = false := by
  rcases hc : s.launch_config with _ | c <;> simp [recompute_running, hc, h]

theorem recompute_true {s : RuntimeProcessState} {config : RuntimeLaunchConfig}
    (hc : s.launch_config = some config)
    (hw : s.web.isSome = true)
    (hb : is_backend_required config = true → s.backend.isSome = true)
    (hm : is_mongo_required config = true → s.mongo.isSome = true) :
    recompute_running s = true := by
  obtain ⟨cw, hcw⟩ := Option.isSome_iff_exists.mp hw
  simp only [recompute_running, hc, hcw, Option.isNone_some, Bool.false_eq_true,
    if_false]
  rcases hbr : is_backend_required config with _ | _
  · rcases hmr : is_mongo_required config with _ | _
    · simp
    · obtain ⟨cb, hcb⟩ := Option.isSome_iff_exists.mp (hm hmr)
      simp [hcb]
  · obtain ⟨cb, hcb⟩ := Option.isSome_iff_exists.mp (hb hbr)
    rcases hmr : is_mongo_required config with _ | _
    · simp [hcb]
    · obtain ⟨cm, hcm⟩ := Option.isSome_iff_exists.mp (hm hmr)
      simp [hcb, hcm]

theorem spawn_backend_required_isSome {out : SpawnOutcome}
    {config : RuntimeLaunchConfig} {ch : Option Child}
    (hreq : is_backend_required config = true)
    (h : spawn_backend out config = Except.ok ch) : ch.isSome = true := by
  simp only [is_backend_required, decide_eq_true_eq] at hreq
  cases out with
  | ok pid =>
    simp_all [spawn_backend]
    simp [← h]
  | fail e => simp_all [spawn_backend]

theorem spawn_mongo_required_isSome {out : SpawnOutcome}
    {config : RuntimeLaunchConfig} {ch : Option Child}
    (hreq : is_mongo_required config = true)
    (h : spawn_mongo out config = Except.ok ch) : ch.isSome = true := by
  simp only [is_mongo_required, Bool.and_eq_true, decide_eq_true_eq] at hreq
  obtain ⟨cb, hcb⟩ := Option.isSome_iff_exists.mp hreq.2
  cases out with
  | ok pid =>
    simp_all [spawn_mongo]
    simp [← h]
  | fail e => simp_all [spawn_mongo]

/-- Invariant preservation by `desktop_runtime_status`. -/
theorem status_op_inv (env : ReconcileEnv) (s : RuntimeProcessState) (w : World)
    (hev : s.events.length ≤ MAX_EVENTS)
    (har : s.auto_restart = true → s.launch_config.isSome = true) :
    (desktop_runtime_status env s w).1.1.running =
        recompute_running (desktop_runtime_status env s w).1.1 ∧
    (desktop_runtime_status env s w).1.1.events.length ≤ MAX_EVENTS ∧
    ((desktop_runtime_status env s w).1.1.auto_restart = true →
      (desktop_runtime_status env s w).1.1.launch_config.isSome = true) := by
  simp only [desktop_runtime_status]
  have hE := ensure_sameCore env.os s w none
  have hEev := ensure_events_le env.os s w none hev
  obtain ⟨c1, c2, c3⟩ := reconcile_core env (ensure_diagnostics_state env.os s w none).1
    (ensure_diagnostics_state env.os s w none).2
  refine ⟨reconcile_running_recomputed _ _ _, c3 hEev, fun ha => ?_⟩
  rcases c2 with h | h
  · rw [c1, hE.launch_config]
    exact har ((hE.auto_restart.symm.trans (h.symm.trans ha)).symm ▸ rfl)
  · simp [ha] at h

/-- Invariant preservation by `desktop_runtime_diagnostics`. -/
theorem diagnostics_op_inv (env : ReconcileEnv) (limit : Option Nat)
    (s : RuntimeProcessState) (w : World)
    (hev : s.events.length ≤ MAX_EVENTS)
    (har : s.auto_restart = true → s.launch_config.isSome = true) :
    (desktop_runtime_diagnostics env limit s w).1.1.running =
        recompute_running (desktop_runtime_diagnostics env limit s w).1.1 ∧
    (desktop_runtime_diagnostics env limit s w).1.1.events.length ≤ MAX_EVENTS ∧
    ((desktop_runtime_diagnostics env limit s w).1.1.auto_restart = true →
      (desktop_runtime_diagnostics env limit s w).1.1.launch_config.isSome = true) := by
  simp only [desktop_runtime_diagnostics]
  have hE := ensure_sameCore env.os s w none
  have hEev := ensure_events_le env.os s w none hev
  obtain ⟨c1, c2, c3⟩ := reconcile_core env (ensure_diagnostics_state env.os s w none).1
    (ensure_diagnostics_state env.os s w none).2
  refine ⟨reconcile_running_recomputed _ _ _, c3 hEev, fun ha => ?_⟩
  rcases c2 with h | h
  · rw [c1, hE.launch_config]
    exact har ((hE.auto_restart.symm.trans (h.symm.trans ha)).symm ▸ rfl)
  · simp [ha] at h

/-- Invariant establishment by `desktop_runtime_stop` (unconditional except
for the buffer bound, which only needs the final push). -/
theorem stop_op_inv (os : OsEnv) (now : Nat) (s : RuntimeProcessState) (w : World) :
    (desktop_runtime_stop os now s w).1.1.running = false ∧
    (desktop_runtime_stop os now s w).1.1.launch_config = none ∧
    (desktop_runtime_stop os now s w).1.1.auto_restart = false ∧
    (desktop_runtime_stop os now s w).1.1.events.length ≤ MAX_EVENTS := by
  simp only [desktop_runtime_stop]
  refine ⟨?_, ?_, ?_, push_events_le _ _ _ _ _ _ _⟩ <;>
    simp [stop_all, clear_launch_state, stop_processes]

/-- Pushing an event preserves the running-flag invariant. -/
theorem push_running_recompute (os : OsEnv) (now : Nat) (s : RuntimeProcessState)
    (w : World) (level source message : String)
    (h : s.running = recompute_running s) :
    (push_runtime_event os now s w level source message).1.running =
      recompute_running (push_runtime_event os now s w level source message).1 := by
  have hP := push_sameCore os now s w level source message
  rw [hP.running, recompute_sameCore hP]
  exact h

set_option maxHeartbeats 1600000 in
/-- Invariant preservation by `desktop_runtime_start`. -/
theorem start_op_inv (env : StartEnv) (req : Option DesktopRuntimeStartRequest)
    (s : RuntimeProcessState) (w : World)
    (hev : s.events.length ≤ MAX_EVENTS)
    (har : s.auto_restart = true → s.launch_config.isSome = true) :
    (desktop_runtime_start env req s w).1.1.running =
        recompute_running (desktop_runtime_start env req s w).1.1 ∧
    (desktop_runtime_start env req s w).1.1.events.length ≤ MAX_EVENTS ∧
    ((desktop_runtime_start env req s w).1.1.auto_restart = true →
      (desktop_runtime_start env req s w).1.1.launch_config.isSome = true) := by
  obtain ⟨c1, c2, c3⟩ := reconcile_core env.reconcileEnv s w
  have hrr := reconcile_running_recomputed env.reconcileEnv s w
  have harR : (reconcile_runtime_state env.reconcileEnv s w).1.auto_restart = true →
      (reconcile_runtime_state env.reconcileEnv s w).1.launch_config.isSome = true := by
    intro ha
    rcases c2 with h | h
    · rw [c1]
      exact har (h.symm.trans ha)
    · simp [ha] at h
  simp only [desktop_runtime_start]
  split
  · have hP := push_sameCore env.reconcileEnv.os env.reconcileEnv.now
      (reconcile_runtime_state env.reconcileEnv s w).1
      (reconcile_runtime_state env.reconcileEnv s w).2
      "info" "runtime" "Start requested while already running"
    refine ⟨?_, push_events_le _ _ _ _ _ _ _, fun ha => ?_⟩
    · rw [hP.running, recompute_sameCore hP]
      exact hrr
    · rw [hP.launch_config]
      exact harR (hP.auto_restart.symm.trans ha)
  · split
    · have hE := ensure_sameCore env.reconcileEnv.os
        (reconcile_runtime_state env.reconcileEnv s w).1
        (reconcile_runtime_state env.reconcileEnv s w).2
        (resolve_launch_plan env.reconcileEnv.os env.fs env.reconcileEnv.now
          (req.getD {})).2.1.data_dir
      refine ⟨?_, ensure_events_le _ _ _ _ (c3 hev), fun ha => ?_⟩
      · rw [hE.running, recompute_sameCore hE]
        exact hrr
      · rw [hE.launch_config]
        exact harR (hE.auto_restart.symm.trans ha)
    · rename_i launch hplan
      split
      · refine ⟨?_, push_events_le _ _ _ _ _ _ _, fun _ => by simp⟩
        rw [recompute_web_none (by simp [stop_processes])]
        simp [stop_processes]
      · rename_i mongoChild hmongo
        split
        · refine ⟨?_, push_events_le _ _ _ _ _ _ _, fun _ => by simp⟩
          rename_i e heq
          rw [recompute_web_none (by simp [stop_processes])]
          simp [stop_processes]
        · rename_i backendChild hbackend
          split
          · refine ⟨?_, push_events_le _ _ _ _ _ _ _, fun _ => by simp⟩
            rw [recompute_web_none (by simp [stop_processes])]
            simp [stop_processes]
          · rename_i webChild hweb
            split <;> split
            · refine ⟨?_, push_events_le _ _ _ _ _ _ _, fun ha => ?_⟩
              · rw [recompute_none (by simp [stop_all, clear_launch_state, stop_processes])]
                simp [stop_all, clear_launch_state, stop_processes]
              · simp [stop_all, clear_launch_state, stop_processes] at ha
            · refine ⟨?_, push_events_le _ _ _ _ _ _ _, fun _ => by simp⟩
              apply push_running_recompute
              refine Eq.symm ?_
              apply recompute_true
              · rfl
              · rfl
              · intro hbr
                rw [if_pos hbr] at hbackend
                exact spawn_backend_required_isSome hbr hbackend
              · intro hmr
                rw [if_pos hmr] at hmongo
                exact spawn_mongo_required_isSome hmr hmongo
            · refine ⟨?_, push_events_le _ _ _ _ _ _ _, fun ha => ?_⟩
              · rw [recompute_none (by simp [stop_all, clear_launch_state, stop_processes])]
                simp [stop_all, clear_launch_state, stop_processes]
              · simp [stop_all, clear_launch_state, stop_processes] at ha
            · refine ⟨?_, push_events_le _ _ _ _ _ _ _, fun _ => by simp⟩
              apply push_running_recompute
              refine Eq.symm ?_
              apply recompute_true
              · rfl
              · rfl
              · intro hbr
                rw [if_pos hbr] at hbackend
                exact spawn_backend_required_isSome hbr hbackend
              · intro hmr
                rw [if_pos hmr] at hmongo
                exact spawn_mongo_required_isSome hmr hmongo

/-- The three cross-operation invariants (§3 of the spec) hold in every
reachable supervisor state: the `running` flag equals the recomputed
predicate, the event buffer is capped at 200, and `autoRestart` implies a
launch config. -/
theorem reachable_invariants (sw : RuntimeProcessState × World) (h : Reachable sw) :
    sw.1.running = recompute_running sw.1 ∧
    sw.1.events.length ≤ MAX_EVENTS ∧
    (sw.1.auto_restart = true → sw.1.launch_config.isSome = true) := by
  induction h with
  | init w =>
    refine ⟨rfl, ?_, ?_⟩ <;> simp [default_runtime_state, MAX_EVENTS]
  | step_status env hr ih =>
    exact status_op_inv env _ _ ih.2.1 ih.2.2
  | step_diagnostics env limit hr ih =>
    exact diagnostics_op_inv env limit _ _ ih.2.1 ih.2.2
  | step_stop os now hr ih =>
    obtain ⟨h1, h2, h3, h4⟩ := stop_op_inv os now _ _
    refine ⟨h1.trans (recompute_none h2).symm, h4, fun ha => ?_⟩
    rw [h3] at ha
    cases ha
  | step_start env request hr ih =>
    exact start_op_inv env request _ _ ih.2.1 ih.2.2

/-- The recomputed running predicate, spelled out as the §3 invariant. -/
theorem recompute_iff (s : RuntimeProcessState) :
    recompute_running s = true ↔
      (s.launch_config.isSome = true ∧ s.web.isSome = true ∧
        ∀ cfg, s.launch_config = some cfg →
          (is_backend_required cfg = true → s.backend.isSome = true) ∧
          (is_mongo_required cfg = true → s.mongo.isSome = true)) := by
  rcases hc : s.launch_config with _ | cfg
  · simp [recompute_running, hc]
  · rcases hw : s.web with _ | cw
    · simp [recompute_running, hc, hw]
    · simp only [recompute_running, hc, hw, Option.isNone_some, Bool.false_eq_true,
        if_false, Option.isSome_some, Option.some.injEq, true_and]
      constructor
      · intro h cfg' hcfg'
        subst hcfg'
        constructor
        · intro hbr
          rcases hb : s.backend with _ | cb
          · rw [hbr, hb] at h
            simp at h
          · simp
        · intro hmr
          rcases hm : s.mongo with _ | cm
          · rcases hb : s.backend with _ | cb
            · rw [hb] at h
              rcases hbr : is_backend_required cfg
              · rw [hbr, hm, hmr] at h
                simp at h
              · rw [hbr] at h
                simp at h
            · rw [hb, hm, hmr] at h
              simp at h
          · simp
      · intro hreq
        obtain ⟨hb, hm⟩ := hreq cfg rfl
        rcases hbr : is_backend_required cfg
        · rcases hmr : is_mongo_required cfg
          · simp [hbr, hmr]
          · obtain ⟨cm, hcm⟩ := Option.isSome_iff_exists.mp (hm hmr)
            simp [hbr, hmr, hcm]
        · obtain ⟨cb, hcb⟩ := Option.isSome_iff_exists.mp (hb hbr)
          rcases hmr : is_mongo_required cfg
          · simp [hbr, hmr, hcb]
          · obtain ⟨cm, hcm⟩ := Option.isSome_iff_exists.mp (hm hmr)
            simp [hbr, hmr, hcb, hcm]

/-- C1: in every supervisor state reachable by any sequence of the four API
operations, the `running` flag is true iff a `LaunchConfig` is set, the web
handle is present, the backend handle is present whenever the mode requires a
backend, and the database handle is present whenever the mode/config requires
a database; moreover the flag is recomputed from the handles
(`recompute_running`) at the end of every reconciliation, never cached. -/
theorem c1_running_iff_handles :
    (∀ sw : RuntimeProcessState × World, Reachable sw →
      (sw.1.running = true ↔
        (sw.1.launch_config.isSome = true ∧ sw.1.web.isSome = true ∧
          ∀ cfg, sw.1.launch_config = some cfg →
            (is_backend_required cfg = true → sw.1.backend.isSome = true) ∧
            (is_mongo_required cfg = true → sw.1.mongo.isSome = true)))) ∧
    (∀ (env : ReconcileEnv) (s : RuntimeProcessState) (w : World),
      (reconcile_runtime_state env s w).1.running =
        recompute_running (reconcile_runtime_state env s w).1) := by
  constructor
  · intro sw hr
    rw [(reachable_invariants sw hr).1]
    exact recompute_iff sw.1
  · exact reconcile_running_recomputed

theorem c1_witness :
    ((default_runtime_state, worldW).1.running = true ↔
      ((default_runtime_state, worldW).1.launch_config.isSome = true ∧
        (default_runtime_state, worldW).1.web.isSome = true ∧
        ∀ cfg, (default_runtime_state, worldW).1.launch_config = some cfg →
          (is_backend_required cfg = true →
            (default_runtime_state, worldW).1.backend.isSome = true) ∧
          (is_mongo_required cfg = true →
            (default_runtime_state, worldW).1.mongo.isSome = true))) ∧
    (reconcile_runtime_state recEnvFresh stateRunning worldW).1.running =
      recompute_running (reconcile_runtime_state recEnvFresh stateRunning worldW).1 :=
  ⟨c1_running_iff_handles.1 (default_runtime_state, worldW) (Reachable.init worldW),
    c1_running_iff_handles.2 recEnvFresh stateRunning worldW⟩

/-- C5: after any sequence of operations the in-memory event buffer holds at
most 200 entries, and after every append (`push_runtime_event`) the persisted
file at the resolved diagnostics path equals the in-memory buffer (in the
successful-write world; the source ignores write errors). -/
theorem c5_event_buffer_bounded_and_persisted :
    (∀ sw : RuntimeProcessState × World, Reachable sw →
      sw.1.events.length ≤ MAX_EVENTS) ∧
    (∀ (os : OsEnv) (now : Nat) (s : RuntimeProcessState) (w : World)
        (level source message : String),
      ∃ p, (push_runtime_event os now s w level source message).1.diagnostics_path = some p ∧
        (push_runtime_event os now s w level source message).2.file p =
          some (push_runtime_event os now s w level source message).1.events ∧
        (push_runtime_event os now s w level source message).1.events.length ≤ MAX_EVENTS) := by
  constructor
  · exact fun sw hr => (reachable_invariants sw hr).2.1
  · intro os now s w level source message
    obtain ⟨p, h1, h2⟩ := push_persists os now s w level source message
    exact ⟨p, h1, h2, push_events_le _ _ _ _ _ _ _⟩

theorem c5_witness :
    (default_runtime_state, worldW).1.events.length ≤ MAX_EVENTS ∧
    (∃ p, (push_runtime_event osW 5 default_runtime_state worldW "info" "runtime" "x").1.diagnostics_path = some p ∧
      (push_runtime_event osW 5 default_runtime_state worldW "info" "runtime" "x").2.file p =
        some (push_runtime_event osW 5 default_runtime_state worldW "info" "runtime" "x").1.events ∧
      (push_runtime_event osW 5 default_runtime_state worldW "info" "runtime" "x").1.events.length ≤ MAX_EVENTS) :=
  ⟨c5_event_buffer_bounded_and_persisted.1 (default_runtime_state, worldW) (Reachable.init worldW),
    c5_event_buffer_bounded_and_persisted.2 osW 5 default_runtime_state worldW "info" "runtime" "x"⟩

/-- C6: `diagnostics(limit = N)` returns exactly `min(clamp(N), eventCount)`
events, where `clamp` maps values below 1 to 1 and above 300 to 300 and an
omitted limit defaults to 80; the returned events are a suffix of the buffer
(the most recent ones, oldest-to-newest). -/
theorem c6_diagnostics_clamped_suffix (env : ReconcileEnv) (limit : Option Nat)
    (s : RuntimeProcessState) (w : World) :
    (desktop_runtime_diagnostics env limit s w).2.events.length =
      min (clampNat (limit.getD 80) 1 300)
        (desktop_runtime_diagnostics env limit s w).1.1.events.length ∧
    List.IsSuffix (desktop_runtime_diagnostics env limit s w).2.events
      (desktop_runtime_diagnostics env limit s w).1.1.events ∧
    (desktop_runtime_diagnostics env limit s w).2.events =
      (desktop_runtime_diagnostics env limit s w).1.1.events.drop
        ((desktop_runtime_diagnostics env limit s w).1.1.events.length -
          clampNat (limit.getD 80) 1 300) := by
  refine ⟨?_, ?_, rfl⟩
  · simp only [desktop_runtime_diagnostics]
    rw [List.length_drop]
    omega
  · exact List.drop_suffix _ _

/-- C10: `load_runtime_profile` is total and never fails the start: an
absent/blank path, a read failure, or a parse failure each yield the default
(all-fields-absent) profile. -/
theorem c10_profile_loading_total (fs : FsEnv) (path : Option String) :
    (path.bind normalize_path = none → load_runtime_profile fs path = {}) ∧
    ((∀ p, fs.readFile p = none) → load_runtime_profile fs path = {}) ∧
    ((∀ raw, fs.parseProfile raw = none) → load_runtime_profile fs path = {}) := by
  refine ⟨fun h => ?_, fun h => ?_, fun h => ?_⟩
  · simp [load_runtime_profile, h]
  · simp only [load_runtime_profile]
    rcases hn : path.bind normalize_path with _ | p
    · rfl
    · simp [h]
  · simp only [load_runtime_profile]
    rcases hn : path.bind normalize_path with _ | p
    · rfl
    · rcases hr : fs.readFile p with _ | raw
      · simp [hr]
      · simp [hr, h raw]

theorem c10_witness :
    load_runtime_profile fsW none = {} ∧
    load_runtime_profile fsW (some "profile.json") = {} ∧
    load_runtime_profile ⟨fun _ => some "not json", fun _ => none⟩ (some "p") = {} :=
  ⟨(c10_profile_loading_total fsW none).1 rfl,
    (c10_profile_loading_total fsW (some "profile.json")).2.1 (fun _ => rfl),
    (c10_profile_loading_total ⟨fun _ => some "not json", fun _ => none⟩ (some "p")).2.2
      (fun _ => rfl)⟩

/-- C4: whenever the launch planner succeeds, a plan whose mode is
`LocalFullstack` has `backend_url = "http://127.0.0.1:<backendPort>"`, with
`backendPort` taken from the profile's port block (default 8080), regardless
of any profile-supplied `backend_url`; only a `RemoteSlim` plan uses the
profile's `backend_url`, defaulting to the loopback URL when absent. -/
theorem c4_backend_url_resolution (os : OsEnv) (fs : FsEnv) (now : Nat)
    (req : DesktopRuntimeStartRequest) (launch : RuntimeLaunchConfig)
    (h : (resolve_launch_plan os fs now req).2.2 = Except.ok launch) :
    (launch.mode = RuntimeMode.LocalFullstack →
      launch.backend_url = "http://127.0.0.1:" ++ toString launch.backend_port ∧
      launch.backend_port =
        (((resolve_launch_plan os fs now req).2.1.local_ports.getD {}).backend.getD 8080)) ∧
    (launch.mode = RuntimeMode.RemoteSlim →
      launch.backend_url =
        (resolve_launch_plan os fs now req).2.1.backend_url.getD "http://127.0.0.1:8080") := by
  simp only [resolve_launch_plan] at h ⊢
  split at h
  · cases h
  · split at h
    · cases h
    · rw [Except.ok.injEq] at h
      subst h
      constructor
      · intro hM
        simp only at hM
        constructor
        · simp [hM]
        · rfl
      · intro hM
        simp only at hM
        simp [hM]

theorem c4_witness :
    planOkW.2.2 = Except.ok launchW ∧
    (launchW.mode = RuntimeMode.LocalFullstack →
      launchW.backend_url = "http://127.0.0.1:" ++ toString launchW.backend_port ∧
      launchW.backend_port = ((planOkW.2.1.local_ports.getD {}).backend.getD 8080)) ∧
    (launchW.mode = RuntimeMode.RemoteSlim →
      launchW.backend_url = planOkW.2.1.backend_url.getD "http://127.0.0.1:8080") :=
  ⟨rfl, c4_backend_url_resolution osW fsW 1000 {} launchW rfl⟩

/-- C7: calling `start` while the supervisor is already running (per the §3
predicate after the initial reconciliation) performs no spawns: the entire
call equals the reconciliation followed by one informational event push, all
other state fields are unchanged, and the current snapshot is returned. -/
theorem c7_start_idempotent_when_running (env : StartEnv)
    (req : Option DesktopRuntimeStartRequest) (s : RuntimeProcessState) (w : World)
    (h : (reconcile_runtime_state env.reconcileEnv s w).1.running = true) :
    desktop_runtime_start env req s w =
      (push_runtime_event env.reconcileEnv.os env.reconcileEnv.now
        (reconcile_runtime_state env.reconcileEnv s w).1
        (reconcile_runtime_state env.reconcileEnv s w).2
        "info" "runtime" "Start requested while already running",
       Except.ok (snapshot_status
        (push_runtime_event env.reconcileEnv.os env.reconcileEnv.now
          (reconcile_runtime_state env.reconcileEnv s w).1
          (reconcile_runtime_state env.reconcileEnv s w).2
          "info" "runtime" "Start requested while already running").1)) ∧
    (desktop_runtime_start env req s w).1.1.running =
      (reconcile_runtime_state env.reconcileEnv s w).1.running ∧
    (desktop_runtime_start env req s w).1.1.web =
      (reconcile_runtime_state env.reconcileEnv s w).1.web ∧
    (desktop_runtime_start env req s w).1.1.backend =
      (reconcile_runtime_state env.reconcileEnv s w).1.backend ∧
    (desktop_runtime_start env req s w).1.1.mongo =
      (reconcile_runtime_state env.reconcileEnv s w).1.mongo ∧
    (desktop_runtime_start env req s w).1.1.launch_config =
      (reconcile_runtime_state env.reconcileEnv s w).1.launch_config ∧
    (desktop_runtime_start env req s w).1.1.auto_restart =
      (reconcile_runtime_state env.reconcileEnv s w).1.auto_restart ∧
    (desktop_runtime_start env req s w).1.1.restart_count =
      (reconcile_runtime_state env.reconcileEnv s w).1.restart_count ∧
    (desktop_runtime_start env req s w).1.1.last_restart_ms =
      (reconcile_runtime_state env.reconcileEnv s w).1.last_restart_ms ∧
    (desktop_runtime_start env req s w).1.1.last_error =
      (reconcile_runtime_state env.reconcileEnv s w).1.last_error ∧
    (desktop_runtime_start env req s w).1.1.started_at_ms =
      (reconcile_runtime_state env.reconcileEnv s w).1.started_at_ms := by
  have heq : desktop_runtime_start env req s w =
      (push_runtime_event env.reconcileEnv.os env.reconcileEnv.now
        (reconcile_runtime_state env.reconcileEnv s w).1
        (reconcile_runtime_state env.reconcileEnv s w).2
        "info" "runtime" "Start requested while already running",
       Except.ok (snapshot_status
        (push_runtime_event env.reconcileEnv.os env.reconcileEnv.now
          (reconcile_runtime_state env.reconcileEnv s w).1
          (reconcile_runtime_state env.reconcileEnv s w).2
          "info" "runtime" "Start requested while already running").1)) := by
    simp only [desktop_runtime_start]
    rw [if_pos h]
  have hP := push_sameCore env.reconcileEnv.os env.reconcileEnv.now
    (reconcile_runtime_state env.reconcileEnv s w).1
    (reconcile_runtime_state env.reconcileEnv s w).2
    "info" "runtime" "Start requested while already running"
  rw [heq]
  exact ⟨rfl, hP.running, hP.web, hP.backend, hP.mongo, hP.launch_config,
    hP.auto_restart, hP.restart_count, hP.last_restart_ms, hP.last_error,
    hP.started_at_ms⟩

theorem c7_witness :
    (reconcile_runtime_state startEnvW.reconcileEnv stateRunning worldW).1.running = true ∧
    (desktop_runtime_start startEnvW none stateRunning worldW).1.1.web =
      (reconcile_runtime_state startEnvW.reconcileEnv stateRunning worldW).1.web :=
  ⟨by decide,
    (c7_start_idempotent_when_running startEnvW none stateRunning worldW (by decide)).2.2.1⟩

/-- The reconciler decides to attempt a restart whenever `autoRestart` is on,
a config exists, and something exited or the running predicate fails. -/
theorem should_attempt_of (env : ReconcileEnv) (s : RuntimeProcessState) (w : World)
    (hA : s.auto_restart = true) (hC : s.launch_config.isSome = true)
    (hQ : (poll_process_exits env.poll s).2 ≠ [] ∨
      recompute_running (poll_process_exits env.poll s).1 = false) :
    should_attempt_restart env s w = true := by
  obtain ⟨o1, o2, o3, o4, o5, o6, o7, o8⟩ := observe_core env s w
  simp only [should_attempt_restart, o1, o2, o8, hA, hC, Bool.true_and]
  rcases hQ with h | h
  · simp [h]
  · have hrec : recompute_running (reconcile_observe env s w).1.1 = false := by
      rw [recompute_congr (o2.trans (poll_launch_config env.poll s).symm) o5 o6 o7]
      exact h
    simp [hrec]

/-- The breaker fires exactly when the last restart is recent and the counter
is at least 6. -/
theorem breaker_cond_of (env : ReconcileEnv) (s : RuntimeProcessState) (w : World)
    (last : Nat) (hL : s.last_restart_ms = some last)
    (hRecent : env.now - last < 90000) (hCount : 6 ≤ s.restart_count) :
    (recently_restarted env s w
      && decide (6 ≤ (reconcile_observe env s w).1.1.restart_count)) = true := by
  obtain ⟨o1, o2, o3, o4, o5, o6, o7, o8⟩ := observe_core env s w
  simp only [recently_restarted, o3, o4, hL]
  simp [hRecent, hCount]

/-- The breaker does not fire when the window has elapsed. -/
theorem breaker_cond_false_of (env : ReconcileEnv) (s : RuntimeProcessState) (w : World)
    (last : Nat) (hL : s.last_restart_ms = some last)
    (hOld : 90000 ≤ env.now - last) :
    (recently_restarted env s w
      && decide (6 ≤ (reconcile_observe env s w).1.1.restart_count)) = false := by
  obtain ⟨o1, o2, o3, o4, o5, o6, o7, o8⟩ := observe_core env s w
  simp only [recently_restarted, o4, hL]
  simp [Bool.and_eq_false_iff]
  intro h
  omega

/-- C2: whenever a restart would be attempted but the last restart is less
than 90 s old and `restartCount ≥ 6`, reconciliation disables `autoRestart`,
logs an error-level watchdog event (with the level/source tags normalized the
way `push_runtime_event` normalizes them), sets `lastError`, and attempts no
restart (handles stay as polled, counters unchanged); and once `autoRestart`
is false no reconciliation — standalone or inside `status`, `diagnostics` or
`stop` — ever attempts a restart until a new `start` re-enables it. -/
theorem c2_restart_circuit_breaker :
    (∀ (env : ReconcileEnv) (s : RuntimeProcessState) (w : World) (last : Nat),
      s.auto_restart = true → s.launch_config.isSome = true →
      ((poll_process_exits env.poll s).2 ≠ [] ∨
        recompute_running (poll_process_exits env.poll s).1 = false) →
      s.last_restart_ms = some last → env.now - last < 90000 → 6 ≤ s.restart_count →
      ((reconcile_runtime_state env s w).1.auto_restart = false ∧
        (reconcile_runtime_state env s w).1.last_error =
          some "Auto-restart disabled after repeated sidecar failures" ∧
        (reconcile_runtime_state env s w).1.events.getLast? =
          some ⟨env.now, "error".trim.toLower, "watchdog".trim.toLower,
            "Auto-restart disabled after repeated sidecar failures"⟩ ∧
        (reconcile_runtime_state env s w).1.web = (poll_process_exits env.poll s).1.web ∧
        (reconcile_runtime_state env s w).1.backend = (poll_process_exits env.poll s).1.backend ∧
        (reconcile_runtime_state env s w).1.mongo = (poll_process_exits env.poll s).1.mongo ∧
        (reconcile_runtime_state env s w).1.restart_count = s.restart_count ∧
        (reconcile_runtime_state env s w).1.last_restart_ms = s.last_restart_ms)) ∧
    (∀ (env : ReconcileEnv) (s : RuntimeProcessState) (w : World),
      s.auto_restart = false →
      ((reconcile_runtime_state env s w).1.auto_restart = false ∧
        (reconcile_runtime_state env s w).1.restart_count = s.restart_count ∧
        (reconcile_runtime_state env s w).1.last_restart_ms = s.last_restart_ms ∧
        (reconcile_runtime_state env s w).1.web = (poll_process_exits env.poll s).1.web ∧
        (reconcile_runtime_state env s w).1.backend = (poll_process_exits env.poll s).1.backend ∧
        (reconcile_runtime_state env s w).1.mongo = (poll_process_exits env.poll s).1.mongo)) ∧
    (∀ (env : ReconcileEnv) (limit : Option Nat) (os : OsEnv) (now : Nat)
        (s : RuntimeProcessState) (w : World),
      s.auto_restart = false →
      ((desktop_runtime_status env s w).1.1.auto_restart = false ∧
        (desktop_runtime_diagnostics env limit s w).1.1.auto_restart = false ∧
        (desktop_runtime_stop os now s w).1.1.auto_restart = false)) := by
  have no_restart_facts : ∀ (env : ReconcileEnv) (s : RuntimeProcessState) (w : World),
      s.auto_restart = false →
      ((reconcile_runtime_state env s w).1.auto_restart = false ∧
        (reconcile_runtime_state env s w).1.restart_count = s.restart_count ∧
        (reconcile_runtime_state env s w).1.last_restart_ms = s.last_restart_ms ∧
        (reconcile_runtime_state env s w).1.web = (poll_process_exits env.poll s).1.web ∧
        (reconcile_runtime_state env s w).1.backend = (poll_process_exits env.poll s).1.backend ∧
        (reconcile_runtime_state env s w).1.mongo = (poll_process_exits env.poll s).1.mongo) := by
    intro env s w hA
    obtain ⟨o1, o2, o3, o4, o5, o6, o7, o8⟩ := observe_core env s w
    have hcond : should_attempt_restart env s w = false := by
      simp [should_attempt_restart, o1, hA]
    rw [reconcile_eq_no_restart env s w hcond]
    exact ⟨o1.trans hA, o3, o4, o5, o6, o7⟩
  refine ⟨?_, no_restart_facts, ?_⟩
  · intro env s w last hA hC hQ hL hRecent hCount
    obtain ⟨o1, o2, o3, o4, o5, o6, o7, o8⟩ := observe_core env s w
    rw [reconcile_eq_breaker env s w (should_attempt_of env s w hA hC hQ)
      (breaker_cond_of env s w last hL hRecent hCount)]
    refine ⟨?_, rfl, ?_, ?_, ?_, ?_, ?_, ?_⟩
    · simp
    · exact push_getLast _ _ _ _ _ _ _
    · simpa using o5
    · simpa using o6
    · simpa using o7
    · simpa using o3
    · simpa using o4
  · intro env limit os now s w hA
    refine ⟨?_, ?_, (stop_op_inv os now s w).2.2.1⟩
    · have hE := ensure_sameCore env.os s w none
      exact (no_restart_facts env _ _ (hE.auto_restart.trans hA)).1
    · have hE := ensure_sameCore env.os s w none
      exact (no_restart_facts env _ _ (hE.auto_restart.trans hA)).1

theorem c2_witness :
    (stateBreaker.auto_restart = true ∧ stateBreaker.launch_config.isSome = true ∧
      recompute_running (poll_process_exits recEnvFresh.poll stateBreaker).1 = false ∧
      stateBreaker.last_restart_ms = some 0 ∧ recEnvFresh.now - 0 < 90000 ∧
      6 ≤ stateBreaker.restart_count) ∧
    (reconcile_runtime_state recEnvFresh stateBreaker worldW).1.auto_restart = false ∧
    (reconcile_runtime_state recEnvFresh stateBreaker worldW).1.restart_count =
      stateBreaker.restart_count ∧
    (desktop_runtime_stop osW 7 default_runtime_state worldW).1.1.auto_restart = false :=
  ⟨⟨by decide, by decide, by decide, by decide, by decide, by decide⟩,
    (c2_restart_circuit_breaker.1 recEnvFresh stateBreaker worldW 0 (by decide) (by decide)
      (Or.inr (by decide)) (by decide) (by decide) (by decide)).1,
    (c2_restart_circuit_breaker.1 recEnvFresh stateBreaker worldW 0 (by decide) (by decide)
      (Or.inr (by decide)) (by decide) (by decide) (by decide)).2.2.2.2.2.2.1,
    (c2_restart_circuit_breaker.2.2 recEnvFresh none osW 7 default_runtime_state worldW
      (by decide)).2.2⟩

/-- C3 counterexample: from a state with `restartCount = 6` whose last restart
is 200 s in the past (window elapsed), a qualifying failure (missing web
process) leads the reconciler to attempt a restart — but the restart count is
NOT reset by the window: it becomes 7 (neither 0 nor 1), refuting the claim
that "the restart count is reset by the window". -/
theorem c3_counterexample :
    stateBreaker.restart_count = 6 ∧
    stateBreaker.last_restart_ms = some 0 ∧
    recEnvLate.now = 200000 ∧
    recompute_running (poll_process_exits recEnvLate.poll stateBreaker).1 = false ∧
    (reconcile_runtime_state recEnvLate stateBreaker worldW).1.restart_count = 7 ∧
    ¬ (reconcile_runtime_state recEnvLate stateBreaker worldW).1.restart_count ≤ 1 ∧
    (reconcile_runtime_state recEnvLate stateBreaker worldW).1.auto_restart = true ∧
    (reconcile_runtime_state recEnvLate stateBreaker worldW).1.last_restart_ms =
      some 200000 := by
  decide

/-- C3 (amended): after 6 restarts, once the last restart is at least 90 s in
the past, a subsequent qualifying failure is treated independently in the
sense that the breaker does not trip (`autoRestart` stays enabled and the
restart pass runs) — so there is no lifetime cap on restart attempts — but
the window does NOT reset the restart count: the count is preserved or bumped
once (saturating), and in particular stays at least 6, so the breaker is
governed by "lifetime restartCount ≥ 6 AND last restart less than 90 s ago",
not by a six-within-a-rolling-window rule. -/
theorem c3_window_elapsed_no_reset (env : ReconcileEnv) (s : RuntimeProcessState)
    (w : World) (last : Nat)
    (hA : s.auto_restart = true) (hC : s.launch_config.isSome = true)
    (hQ : (poll_process_exits env.poll s).2 ≠ [] ∨
      recompute_running (poll_process_exits env.poll s).1 = false)
    (hL : s.last_restart_ms = some last) (hOld : 90000 ≤ env.now - last)
    (hCount : 6 ≤ s.restart_count) :
    (reconcile_runtime_state env s w).1.auto_restart = true ∧
    ((reconcile_runtime_state env s w).1.restart_count = s.restart_count ∨
      (reconcile_runtime_state env s w).1.restart_count = sat_add_u32 s.restart_count) ∧
    6 ≤ (reconcile_runtime_state env s w).1.restart_count := by
  obtain ⟨o1, o2, o3, o4, o5, o6, o7, o8⟩ := observe_core env s w
  obtain ⟨r1, r2, r3, r4, r5, r6⟩ := restart_core env.os env.now env.restart
    (reconcile_observe env s w).1.1 (reconcile_observe env s w).1.2
  have h1 := should_attempt_of env s w hA hC hQ
  have h2 := breaker_cond_false_of env s w last hL hOld
  have hcount2 : (restart_missing_processes env.os env.now env.restart
      (reconcile_observe env s w).1.1 (reconcile_observe env s w).1.2).1.1.restart_count =
        s.restart_count ∨
      (restart_missing_processes env.os env.now env.restart
        (reconcile_observe env s w).1.1 (reconcile_observe env s w).1.2).1.1.restart_count =
        sat_add_u32 s.restart_count := by
    rcases r5 with h | h
    · exact Or.inl (h.trans o3)
    · rw [h, o3]
      exact Or.inr rfl
  simp only [reconcile_runtime_state]
  rw [if_pos h1, if_neg (by simp [h2])]
  split
  · refine ⟨?_, ?_, ?_⟩
    · simp [r1.trans (o1.trans hA)]
    · simpa using hcount2
    · rcases hcount2 with h | h <;> simp only [push_restart_count, h] <;>
        first
          | exact hCount
          | (simp only [sat_add_u32]
             omega)
  · refine ⟨?_, ?_, ?_⟩
    · simpa using r1.trans (o1.trans hA)
    · simpa using hcount2
    · rcases hcount2 with h | h <;> simp only [push_restart_count, h] <;>
        first
          | exact hCount
          | (simp only [sat_add_u32]
             omega)

theorem cap_events_concat_eq (l : List DesktopRuntimeDiagEvent)
    (e : DesktopRuntimeDiagEvent) :
    cap_events (l ++ [e]) = l.drop ((l.length + 1) - MAX_EVENTS) ++ [e] := by
  simp only [cap_events, List.length_append, List.length_singleton]
  split
  · rw [List.drop_append_of_le_length (by simp only [MAX_EVENTS] at *; omega)]
  · rw [Nat.sub_eq_zero_of_le (by omega), List.drop_zero]

theorem ensure_no_change (os : OsEnv) (s : RuntimeProcessState) (w : World)
    (p : String) (hp : s.diagnostics_path = some p) (hev : s.events.isEmpty = false) :
    ensure_diagnostics_state os s w none = (s, w) := by
  simp [ensure_diagnostics_state, hp, hev]

theorem push_events_eq (os : OsEnv) (now : Nat) (s : RuntimeProcessState) (w : World)
    (level source message : String) :
    (push_runtime_event os now s w level source message).1.events =
      cap_events ((ensure_diagnostics_state os s w none).1.events ++
        [⟨now, level.trim.toLower, source.trim.toLower, message⟩]) := rfl

theorem push_dropLast (os : OsEnv) (now : Nat) (s : RuntimeProcessState) (w : World)
    (level source message : String) (p : String)
    (hp : s.diagnostics_path = some p) (hev : s.events.isEmpty = false) :
    (push_runtime_event os now s w level source message).1.events.dropLast =
      s.events.drop ((s.events.length + 1) - MAX_EVENTS) := by
  rw [push_events_eq, ensure_no_change os s w p hp hev]
  rw [cap_events_concat_eq, List.dropLast_concat]

theorem drop_getLast_concat (l : List DesktopRuntimeDiagEvent)
    (e : DesktopRuntimeDiagEvent) (k : Nat) (hk : k ≤ l.length) :
    ((l ++ [e]).drop k).getLast? = some e := by
  rw [List.drop_append_of_le_length hk, List.getLast?_concat]

theorem c3_witness :
    (stateBreaker.auto_restart = true ∧ stateBreaker.launch_config.isSome = true ∧
      recompute_running (poll_process_exits recEnvLate.poll stateBreaker).1 = false ∧
      stateBreaker.last_restart_ms = some 0 ∧ 90000 ≤ recEnvLate.now - 0 ∧
      6 ≤ stateBreaker.restart_count) ∧
    (reconcile_runtime_state recEnvLate stateBreaker worldW).1.auto_restart = true ∧
    6 ≤ (reconcile_runtime_state recEnvLate stateBreaker worldW).1.restart_count :=
  ⟨⟨by decide, by decide, by decide, by decide, by decide, by decide⟩,
    (c3_window_elapsed_no_reset recEnvLate stateBreaker worldW 0 (by decide) (by decide)
      (Or.inr (by decide)) (by decide) (by decide) (by decide)).1,
    (c3_window_elapsed_no_reset recEnvLate stateBreaker worldW 0 (by decide) (by decide)
      (Or.inr (by decide)) (by decide) (by decide) (by decide)).2.2⟩

/-- C8 counterexample: with no web/backend directories present, `start` does
fail with the `ConfigurationError`, but the supervisor state is NOT left
unchanged: the diagnostics path (resolved before the validation) differs from
the prior state's, refuting "before any mutation of the supervisor state /
the prior state unchanged". -/
theorem c8_counterexample :
    (desktop_runtime_start startEnvMissing none default_runtime_state worldW).2 =
      Except.error
        "workspace root not valid: web=/m/../../web backend=/m/../../backend" ∧
    (desktop_runtime_start startEnvMissing none default_runtime_state worldW).1.1.diagnostics_path ≠
      default_runtime_state.diagnostics_path := by
  constructor
  · rfl
  · intro hcontra
    have h2 : (desktop_runtime_start startEnvMissing none default_runtime_state
        worldW).1.1.diagnostics_path.isSome = true :=
      ensure_path_isSome startEnvMissing.reconcileEnv.os
        (reconcile_runtime_state startEnvMissing.reconcileEnv default_runtime_state worldW).1
        (reconcile_runtime_state startEnvMissing.reconcileEnv default_runtime_state worldW).2
        (resolve_launch_plan startEnvMissing.reconcileEnv.os startEnvMissing.fs
          startEnvMissing.reconcileEnv.now ({} : DesktopRuntimeStartRequest)).2.1.data_dir
    rw [hcontra] at h2
    simp [default_runtime_state] at h2

/-- C8 (amended): `start` fails with the `ConfigurationError` whenever the
`web` or `backend` subdirectory is missing under the resolved workspace root,
and the failing validation happens before the start flow spawns anything or
touches the launch config, the handles, the restart policy or the running
flag (so no partial start state is left running) — but not before all state
mutation: the initial reconciliation and the diagnostics-path resolution
preceding the check may still update the event log, diagnostics path and
`lastError`. -/
theorem c8_workspace_validation :
    (∀ (os : OsEnv) (fs : FsEnv) (now : Nat) (req : DesktopRuntimeStartRequest)
        (root : String),
      resolve_workspace_root os = Except.ok root →
      (os.dirExists (pathJoin root "web") = false ∨
        os.dirExists (pathJoin root "backend") = false) →
      (resolve_launch_plan os fs now req).2.2 =
        Except.error ("workspace root not valid: web=" ++ pathJoin root "web"
          ++ " backend=" ++ pathJoin root "backend")) ∧
    (∀ (env : StartEnv) (req : Option DesktopRuntimeStartRequest)
        (s : RuntimeProcessState) (w : World) (e : String),
      (reconcile_runtime_state env.reconcileEnv s w).1.running = false →
      (resolve_launch_plan env.reconcileEnv.os env.fs env.reconcileEnv.now
        (req.getD {})).2.2 = Except.error e →
      ((desktop_runtime_start env req s w).2 = Except.error e ∧
        (desktop_runtime_start env req s w).1.1.web =
          (reconcile_runtime_state env.reconcileEnv s w).1.web ∧
        (desktop_runtime_start env req s w).1.1.backend =
          (reconcile_runtime_state env.reconcileEnv s w).1.backend ∧
        (desktop_runtime_start env req s w).1.1.mongo =
          (reconcile_runtime_state env.reconcileEnv s w).1.mongo ∧
        (desktop_runtime_start env req s w).1.1.launch_config =
          (reconcile_runtime_state env.reconcileEnv s w).1.launch_config ∧
        (desktop_runtime_start env req s w).1.1.auto_restart =
          (reconcile_runtime_state env.reconcileEnv s w).1.auto_restart ∧
        (desktop_runtime_start env req s w).1.1.restart_count =
          (reconcile_runtime_state env.reconcileEnv s w).1.restart_count ∧
        (desktop_runtime_start env req s w).1.1.last_restart_ms =
          (reconcile_runtime_state env.reconcileEnv s w).1.last_restart_ms ∧
        (desktop_runtime_start env req s w).1.1.running = false)) := by
  constructor
  · intro os fs now req root hroot hdir
    simp only [resolve_launch_plan, hroot]
    rcases hdir with h | h <;> simp [h]
  · intro env req s w e hrun hplan
    have heq : desktop_runtime_start env req s w =
        ((ensure_diagnostics_state env.reconcileEnv.os
            (reconcile_runtime_state env.reconcileEnv s w).1
            (reconcile_runtime_state env.reconcileEnv s w).2
            (resolve_launch_plan env.reconcileEnv.os env.fs env.reconcileEnv.now
              (req.getD {})).2.1.data_dir),
          Except.error e) := by
      simp only [desktop_runtime_start]
      rw [if_neg (by simp [hrun]), hplan]
    have hE := ensure_sameCore env.reconcileEnv.os
      (reconcile_runtime_state env.reconcileEnv s w).1
      (reconcile_runtime_state env.reconcileEnv s w).2
      (resolve_launch_plan env.reconcileEnv.os env.fs env.reconcileEnv.now
        (req.getD {})).2.1.data_dir
    rw [heq]
    exact ⟨rfl, hE.web, hE.backend, hE.mongo, hE.launch_config, hE.auto_restart,
      hE.restart_count, hE.last_restart_ms, hE.running.trans hrun⟩

theorem c8_witness :
    (resolve_launch_plan osMissing fsW 1000 {}).2.2 =
      Except.error
        "workspace root not valid: web=/m/../../web backend=/m/../../backend" ∧
    (desktop_runtime_start startEnvMissing none default_runtime_state worldW).1.1.launch_config =
      (reconcile_runtime_state startEnvMissing.reconcileEnv default_runtime_state
        worldW).1.launch_config :=
  ⟨c8_workspace_validation.1 osMissing fsW 1000 {} "/m/../.." rfl (Or.inl rfl),
    (c8_workspace_validation.2 startEnvMissing none default_runtime_state worldW
      "workspace root not valid: web=/m/../../web backend=/m/../../backend"
      (by decide) rfl).2.2.2.2.1⟩

/-- C9: `stop()` always succeeds once the lock is held: it clears all three
handles, `autoRestart`, the restart counters, the launch config and the last
error, returns the snapshot of the final state with `running = false`, and
its last two logged events are the stop-requested and stopped events (tags in
the normalized form `push_runtime_event` stores); moreover, in every
reachable state `autoRestart` is true only while a launch config exists. -/
theorem c9_stop_clears_everything :
    (∀ (os : OsEnv) (now : Nat) (s : RuntimeProcessState) (w : World),
      (desktop_runtime_stop os now s w).2 =
        snapshot_status (desktop_runtime_stop os now s w).1.1 ∧
      (desktop_runtime_stop os now s w).2.running = false ∧
      (desktop_runtime_stop os now s w).1.1.running = false ∧
      (desktop_runtime_stop os now s w).1.1.auto_restart = false ∧
      (desktop_runtime_stop os now s w).1.1.restart_count = 0 ∧
      (desktop_runtime_stop os now s w).1.1.last_restart_ms = none ∧
      (desktop_runtime_stop os now s w).1.1.launch_config = none ∧
      (desktop_runtime_stop os now s w).1.1.last_error = none ∧
      (desktop_runtime_stop os now s w).1.1.web = none ∧
      (desktop_runtime_stop os now s w).1.1.backend = none ∧
      (desktop_runtime_stop os now s w).1.1.mongo = none ∧
      (desktop_runtime_stop os now s w).1.1.events.getLast? =
        some ⟨now, "info".trim.toLower, "runtime".trim.toLower, "Runtime stopped"⟩ ∧
      (desktop_runtime_stop os now s w).1.1.events.dropLast.getLast? =
        some ⟨now, "info".trim.toLower, "runtime".trim.toLower, "Stop requested"⟩) ∧
    (∀ sw : RuntimeProcessState × World, Reachable sw →
      sw.1.auto_restart = true → sw.1.launch_config.isSome = true) := by
  constructor
  · intro os now s w
    obtain ⟨h1, h2, h3, h4⟩ := stop_op_inv os now s w
    obtain ⟨p, hp⟩ := Option.isSome_iff_exists.mp
      (push_path_isSome os now s w "info" "runtime" "Stop requested")
    have hev : ({ stop_all (push_runtime_event os now s w "info" "runtime"
        "Stop requested").1 with last_error := none } :
          RuntimeProcessState).events.isEmpty = false := by
      show (push_runtime_event os now s w "info" "runtime"
        "Stop requested").1.events.isEmpty = false
      rw [push_events_eq, cap_events_concat_eq]
      simp
    refine ⟨rfl, ?_, h1, h3, ?_, ?_, h2, ?_, ?_, ?_, ?_, ?_, ?_⟩
    · simpa [snapshot_status] using h1
    · simp [desktop_runtime_stop, stop_all, clear_launch_state, stop_processes]
    · simp [desktop_runtime_stop, stop_all, clear_launch_state, stop_processes]
    · simp [desktop_runtime_stop, stop_all, clear_launch_state, stop_processes]
    · simp [desktop_runtime_stop, stop_all, clear_launch_state, stop_processes]
    · simp [desktop_runtime_stop, stop_all, clear_launch_state, stop_processes]
    · simp [desktop_runtime_stop, stop_all, clear_launch_state, stop_processes]
    · exact push_getLast _ _ _ _ _ _ _
    · have hp' : ({ stop_all (push_runtime_event os now s w "info" "runtime"
          "Stop requested").1 with last_error := none } :
            RuntimeProcessState).diagnostics_path = some p := hp
      simp only [desktop_runtime_stop]
      rw [push_dropLast os now _ _ "info" "runtime" "Runtime stopped" p hp' hev]
      show ((push_runtime_event os now s w "info" "runtime"
          "Stop requested").1.events.drop
        (((push_runtime_event os now s w "info" "runtime"
          "Stop requested").1.events.length + 1) - MAX_EVENTS)).getLast? = _
      rw [push_events_eq, cap_events_concat_eq]
      refine drop_getLast_concat _ _ _ ?_
      simp only [List.length_append, List.length_singleton, MAX_EVENTS]
      omega
  · exact fun sw hr => (reachable_invariants sw hr).2.2

theorem c9_witness :
    (desktop_runtime_stop osW 7 stateRunning worldW).1.1.running = false ∧
    (desktop_runtime_stop osW 7 stateRunning worldW).1.1.auto_restart = false ∧
    (desktop_runtime_stop osW 7 stateRunning worldW).1.1.launch_config = none ∧
    ((default_runtime_state, worldW).1.auto_restart = true →
      (default_runtime_state, worldW).1.launch_config.isSome = true) :=
  ⟨(c9_stop_clears_everything.1 osW 7 stateRunning worldW).2.2.1,
    (c9_stop_clears_everything.1 osW 7 stateRunning worldW).2.2.2.1,
    (c9_stop_clears_everything.1 osW 7 stateRunning worldW).2.2.2.2.2.2.1,
    c9_stop_clears_everything.2 (default_runtime_state, worldW) (Reachable.init worldW)⟩

end PQA
